import Mathlib

/-!
Shallow embedding of the Bisque kiln-controller firmware core, translated
from the C sources:

* `components/thermocouple/thermocouple.c` — MAX31855 SPI frame decoding;
* `safety.c` — SSR ownership, emergency latch, supervisor loop;
* `components/pid_control/pid_control.c` — PID, relay auto-tune, gain persistence;
* `firing_engine.c` — the 1 Hz firing state machine (`firing_task`);
* `firing_history.c` — bounded history deque with trace files.

Modelling conventions:

* C `float`/`double` values are modelled as exact rationals (`ℚ`).  Every
  float constant of the sources is representable exactly except `(float)M_PI`,
  which is modelled by its exact IEEE-754 binary32 value `13176795 / 4194304`.
* C integer types are modelled as `Nat`/`Int`; where the C code performs a
  narrowing conversion the wrap / truncation is made explicit
  (`i16ofBits`, `cTrunc`).
* `esp_timer_get_time()` is modelled by an explicit `now_us : Int` parameter;
  all calls within one loop iteration are modelled as the same instant.
* Hardware and storage side effects (GPIO level, NVS, files) are modelled as
  fields of the explicit state records.
-/

namespace Bisque

/-! ## Data model and operations (translated from the C sources) -/

/-- Reinterpret the low 16 bits of a natural number as a two's-complement
`int16_t` value, as the C cast `(int16_t)` does. -/
def i16ofBits (n : Nat) : Int :=
  if n % 65536 < 32768 then ((n % 65536 : Nat) : Int)
  else ((n % 65536 : Nat) : Int) - 65536

/-- C truncation toward zero of a rational, as in `(int32_t)(x)` or
`(uint32_t)(x)` applied to a nonnegative float. -/
def cTrunc (q : ℚ) : Int :=
  Int.tdiv q.num (q.den : Int)

/-- Fault flag `TC_FAULT_OPEN_CIRCUIT` (bit 0). -/
def TC_FAULT_OPEN_CIRCUIT : Nat := 1

/-- Fault flag `TC_FAULT_SHORT_GND` (bit 1). -/
def TC_FAULT_SHORT_GND : Nat := 2

/-- Fault flag `TC_FAULT_SHORT_VCC` (bit 2). -/
def TC_FAULT_SHORT_VCC : Nat := 4

/-- Mirror of `thermocouple_reading_t`. -/
structure ThermocoupleReading where
  temperature_c : ℚ
  internal_temp_c : ℚ
  fault : Nat
  timestamp_us : Int
  deriving Repr, DecidableEq

/-- Mirror of `thermocouple_read` (thermocouple.c, lines 39–87) acting on the
assembled 32-bit frame `raw`; the SPI transfer itself is replaced by the raw
frame argument and `esp_timer_get_time()` by `now_us`. -/
def thermocouple_read (raw : Nat) (now_us : Int) : ThermocoupleReading :=
  if raw &&& (1 <<< 16) ≠ 0 then
    { temperature_c := 0
      internal_temp_c := 0
      fault :=
        (if raw &&& 1 ≠ 0 then TC_FAULT_OPEN_CIRCUIT else 0) |||
        (if raw &&& 2 ≠ 0 then TC_FAULT_SHORT_GND else 0) |||
        (if raw &&& 4 ≠ 0 then TC_FAULT_SHORT_VCC else 0)
      timestamp_us := now_us }
  else
    let tc14 := (raw >>> 18) &&& 0x3FFF
    let tcBits := if tc14 &&& 0x2000 ≠ 0 then tc14 ||| 0xC000 else tc14
    let in12 := (raw >>> 4) &&& 0x0FFF
    let inBits := if in12 &&& 0x0800 ≠ 0 then in12 ||| 0xF000 else in12
    { temperature_c := (i16ofBits tcBits : ℚ) * (1 / 4)
      internal_temp_c := (i16ofBits inBits : ℚ) * (1 / 16)
      fault := 0
      timestamp_us := now_us }

/-- Spec-side definition: the two's-complement value of a `width`-bit field. -/
def signExtendTC (width : Nat) (field : Nat) : Int :=
  if field < 2 ^ (width - 1) then (field : Int) else (field : Int) - 2 ^ width

/-- Spec-side definition: the `width`-bit field of a frame starting at bit `lo`. -/
def frameField (raw lo width : Nat) : Nat := raw / 2 ^ lo % 2 ^ width

/-- Mirror of `pid_controller_t`. -/
structure PidController where
  kp : ℚ
  ki : ℚ
  kd : ℚ
  output_min : ℚ
  output_max : ℚ
  integral : ℚ
  prev_error : ℚ
  first_run : Bool
  deriving Repr, DecidableEq

/-- Mirror of `pid_init`. -/
def pid_init (kp ki kd output_min output_max : ℚ) : PidController :=
  { kp := kp, ki := ki, kd := kd, output_min := output_min, output_max := output_max
    integral := 0, prev_error := 0, first_run := true }

/-- Mirror of `pid_reset`. -/
def pid_reset (pid : PidController) : PidController :=
  { pid with integral := 0, prev_error := 0, first_run := true }

/-- Mirror of `pid_compute` (pid_control.c, lines 45–81); returns the updated
controller together with the output. -/
def pid_compute (pid : PidController) (setpoint measured dt_s : ℚ) :
    PidController × ℚ :=
  if dt_s ≤ 0 then (pid, pid.output_min)
  else
    let error := setpoint - measured
    let p_term := pid.kp * error
    let integral1 := pid.integral + error * dt_s
    let i_term := pid.ki * integral1
    let d_term := if pid.first_run then 0 else pid.kd * (error - pid.prev_error) / dt_s
    let pid1 := { pid with integral := integral1, prev_error := error, first_run := false }
    let output := p_term + i_term + d_term
    if output > pid.output_max then
      (if error > 0 then { pid1 with integral := integral1 - error * dt_s } else pid1,
       pid.output_max)
    else if output < pid.output_min then
      (if error < 0 then { pid1 with integral := integral1 - error * dt_s } else pid1,
       pid.output_min)
    else
      (pid1, output)

/-- Default gain `DEFAULT_KP`. -/
def DEFAULT_KP : ℚ := 2

/-- Default gain `DEFAULT_KI`. -/
def DEFAULT_KI : ℚ := 1 / 100

/-- Default gain `DEFAULT_KD`. -/
def DEFAULT_KD : ℚ := 50

/-- Stored `i32` slots of the `"pid"` NVS namespace. -/
structure PidNvs where
  kp : Option Int
  ki : Option Int
  kd : Option Int
  deriving Repr, DecidableEq

/-- Wrap an integer into the `int32_t` range, making the narrowing of the C
cast explicit (for in-range values this is the identity, which is the only
case the C conversion defines). -/
def toInt32 (n : Int) : Int := (n + 2 ^ 31) % 2 ^ 32 - 2 ^ 31

/-- Mirror of `pid_save_gains`: gains are scaled by 10000 and truncated to
`int32_t` before being stored. -/
def pid_save_gains (kp ki kd : ℚ) : PidNvs :=
  { kp := some (toInt32 (cTrunc (kp * 10000)))
    ki := some (toInt32 (cTrunc (ki * 10000)))
    kd := some (toInt32 (cTrunc (kd * 10000))) }

/-- Mirror of `pid_load_gains` when the namespace exists: each present slot is
divided by 10000, absent slots fall back to the defaults. -/
def pid_load_gains (nvs : PidNvs) : ℚ × ℚ × ℚ :=
  ((match nvs.kp with | some v => (v : ℚ) / 10000 | none => DEFAULT_KP),
   (match nvs.ki with | some v => (v : ℚ) / 10000 | none => DEFAULT_KI),
   (match nvs.kd with | some v => (v : ℚ) / 10000 | none => DEFAULT_KD))

/-- Mirror of `autotune_state_t`. -/
inductive AutotuneState
  | idle
  | heatingToSetpoint
  | relayCycling
  | complete
  | failed
  deriving Repr, DecidableEq

/-- Mirror of `pid_autotune_t`. -/
structure PidAutotune where
  state : AutotuneState
  setpoint : ℚ
  hysteresis : ℚ
  cycles_needed : Nat
  cycles_done : Nat
  kp_result : ℚ
  ki_result : ℚ
  kd_result : ℚ
  relay_on : Bool
  peak_high : ℚ
  peak_low : ℚ
  amplitude_sum : ℚ
  period_sum_s : ℚ
  last_crossing_us : Int
  start_time_us : Int
  timeout_us : Int
  above_setpoint : Bool
  half_cycles : Nat
  deriving Repr, DecidableEq

/-- Constant `AUTOTUNE_TIMEOUT_US` (60 minutes). -/
def AUTOTUNE_TIMEOUT_US : Int := 60 * 60 * 1000000

/-- The exact IEEE-754 binary32 value of `(float)M_PI` used by the C code. -/
def M_PI_F : ℚ := 13176795 / 4194304

/-- Mirror of `esp_err_t` results used by the embedded functions. -/
inductive EspErr
  | ok
  | invalidArg
  | notFound
  | noMem
  | fail
  deriving Repr, DecidableEq

/-- Mirror of `pid_autotune_start` (pid_control.c, lines 85–110): rejects
non-positive setpoint or hysteresis before touching the state, otherwise
zeroes the struct and initializes the relay experiment. -/
def pid_autotune_start (at0 : PidAutotune) (setpoint hysteresis : ℚ)
    (now_us : Int) : EspErr × PidAutotune :=
  if setpoint ≤ 0 ∨ hysteresis ≤ 0 then (EspErr.invalidArg, at0)
  else
    (EspErr.ok,
     { state := AutotuneState.heatingToSetpoint
       setpoint := setpoint
       hysteresis := hysteresis
       cycles_needed := 5
       cycles_done := 0
       kp_result := 0
       ki_result := 0
       kd_result := 0
       relay_on := true
       peak_high := -1000
       peak_low := 10000
       amplitude_sum := 0
       period_sum_s := 0
       last_crossing_us := 0
       start_time_us := now_us
       timeout_us := AUTOTUNE_TIMEOUT_US
       above_setpoint := false
       half_cycles := 0 })

/-- Mirror of `pid_autotune_update` (pid_control.c, lines 112–219).  Returns
the updated state, the relay output and the `done` flag. -/
def pid_autotune_update (at0 : PidAutotune) (current_temp : ℚ) (now : Int) :
    PidAutotune × ℚ × Bool :=
  if at0.state = AutotuneState.complete ∨ at0.state = AutotuneState.failed ∨
      at0.state = AutotuneState.idle then
    (at0, 0, true)
  else if now - at0.start_time_us > at0.timeout_us then
    ({ at0 with state := AutotuneState.failed }, 0, true)
  else if at0.state = AutotuneState.heatingToSetpoint then
        if current_temp ≥ at0.setpoint - at0.hysteresis then
          ({ at0 with
               state := AutotuneState.relayCycling
               relay_on := false
               above_setpoint := true
               last_crossing_us := now
               peak_high := current_temp
               peak_low := current_temp }, 1, false)
        else (at0, 1, false)
  else if at0.state = AutotuneState.relayCycling then
        let ph := if current_temp > at0.peak_high then current_temp else at0.peak_high
        let pl := if current_temp < at0.peak_low then current_temp else at0.peak_low
        let now_above : Bool := decide (current_temp > at0.setpoint)
        let relayStep := fun (a : PidAutotune) =>
          let r := if current_temp < a.setpoint - a.hysteresis then true
                   else if current_temp > a.setpoint + a.hysteresis then false
                   else a.relay_on
          ({ a with relay_on := r }, (if r then (1 : ℚ) else 0), false)
        if now_above ≠ at0.above_setpoint then
          let half := at0.half_cycles + 1
          if half ≥ 2 then
            let period_s : ℚ := ((now - at0.last_crossing_us : Int) : ℚ) / 1000000
            let amplitude := (ph - pl) / 2
            let at1 := { at0 with
              peak_high := current_temp
              peak_low := current_temp
              above_setpoint := now_above
              half_cycles := 0
              last_crossing_us := now
              period_sum_s := at0.period_sum_s + period_s
              amplitude_sum := at0.amplitude_sum + amplitude
              cycles_done := at0.cycles_done + 1 }
            if at1.cycles_done ≥ at1.cycles_needed then
              let avg_period := at1.period_sum_s / (at1.cycles_done : ℚ)
              let avg_amplitude := at1.amplitude_sum / (at1.cycles_done : ℚ)
              if avg_amplitude < 1 / 10 then
                ({ at1 with state := AutotuneState.failed }, 0, true)
              else
                let ku := 4 / (M_PI_F * avg_amplitude)
                let pu := avg_period
                ({ at1 with
                     state := AutotuneState.complete
                     kp_result := 6 / 10 * ku
                     ki_result := 12 / 10 * ku / pu
                     kd_result := 75 / 1000 * ku * pu }, 0, true)
            else relayStep at1
          else
            relayStep { at0 with
              peak_high := ph
              peak_low := pl
              above_setpoint := now_above
              half_cycles := half }
        else
          relayStep { at0 with peak_high := ph, peak_low := pl }
  else (at0, 0, true)

/-- Mirror of `pid_autotune_is_complete`. -/
def pid_autotune_is_complete (at0 : PidAutotune) : Bool :=
  at0.state = AutotuneState.complete

/-- Mirror of `pid_autotune_cancel`. -/
def pid_autotune_cancel (at0 : PidAutotune) : PidAutotune :=
  { at0 with state := AutotuneState.idle }

/-- Spec-side abbreviation: the mean amplitude over the five committed cycles
when the fifth commit happens at temperature `t` (the peaks are first updated
with `t`, as the code does at the top of the relay-cycling branch). -/
def autotuneMeanAmp (at0 : PidAutotune) (t : ℚ) : ℚ :=
  (at0.amplitude_sum +
    ((if t > at0.peak_high then t else at0.peak_high) -
     (if t < at0.peak_low then t else at0.peak_low)) / 2) / 5

/-- Spec-side abbreviation: the mean period over the five committed cycles
when the fifth commit happens at instant `now`. -/
def autotuneMeanPeriod (at0 : PidAutotune) (now : Int) : ℚ :=
  (at0.period_sum_s + ((now - at0.last_crossing_us : Int) : ℚ) / 1000000) / 5

/-- A concrete relay-cycling state about to commit its 5th cycle: setpoint
500 °C, hysteresis 5 °C, four cycles committed with amplitude sum 20 and
period sum 400 s, one half-cycle pending, currently above the setpoint. -/
def relayAutotune : PidAutotune :=
  { state := AutotuneState.relayCycling, setpoint := 500, hysteresis := 5
    cycles_needed := 5, cycles_done := 4
    kp_result := 0, ki_result := 0, kd_result := 0
    relay_on := false, peak_high := 505, peak_low := 495
    amplitude_sum := 20, period_sum_s := 400
    last_crossing_us := 0, start_time_us := 0, timeout_us := 3600000000
    above_setpoint := true, half_cycles := 1 }

/-- A concrete auto-tune state used by witnesses. -/
def sampleAutotune : PidAutotune :=
  { state := AutotuneState.idle, setpoint := 0, hysteresis := 0
    cycles_needed := 0, cycles_done := 0
    kp_result := 0, ki_result := 0, kd_result := 0
    relay_on := false, peak_high := 0, peak_low := 0
    amplitude_sum := 0, period_sum_s := 0
    last_crossing_us := 0, start_time_us := 0, timeout_us := 0
    above_setpoint := false, half_cycles := 0 }

/-- Constant `HARDWARE_MAX_TEMP_C` — the non-overridable ceiling. -/
def HARDWARE_MAX_TEMP_C : ℚ := 1400

/-- Constant `TEMP_FAULT_TIMEOUT_US` — 5 s sensor-fault deadline. -/
def TEMP_FAULT_TIMEOUT_US : Int := 5 * 1000 * 1000

/-- Constant `SSR_WINDOW_US` — 2 s time-proportional window. -/
def SSR_WINDOW_US : Int := 2000 * 1000

/-- The safety module's mutable state. -/
structure SafetyState where
  max_safe_temp : ℚ
  emergency : Bool
  temp_fault : Bool
  firing_complete : Bool
  ssr_duty : ℚ
  ssr_window_start_us : Int
  ssr_level : Bool
  vent_level : Bool
  deriving Repr, DecidableEq

/-- Mirror of `safety_init` (clamps the ceiling, drives the SSR low, fresh
event group). -/
def safety_init (max_safe_temp : ℚ) : SafetyState :=
  { max_safe_temp :=
      if max_safe_temp < HARDWARE_MAX_TEMP_C then max_safe_temp else HARDWARE_MAX_TEMP_C
    emergency := false, temp_fault := false, firing_complete := false
    ssr_duty := 0, ssr_window_start_us := 0, ssr_level := false, vent_level := false }

/-- Mirror of `safety_emergency_stop`: SSR low, vent off, duty zeroed,
emergency bit set. -/
def safety_emergency_stop (s : SafetyState) : SafetyState :=
  { s with ssr_level := false, vent_level := false, ssr_duty := 0, emergency := true }

/-- Mirror of `safety_clear_emergency`. -/
def safety_clear_emergency (s : SafetyState) : SafetyState :=
  { s with emergency := false }

/-- Mirror of `safety_set_max_temp`. -/
def safety_set_max_temp (s : SafetyState) (m : ℚ) : SafetyState :=
  { s with max_safe_temp := if m < HARDWARE_MAX_TEMP_C then m else HARDWARE_MAX_TEMP_C }

/-- Mirror of `safety_set_ssr` (safety.c, lines 184–208): a no-op that forces
the GPIO low while the emergency latch holds; otherwise clamps the duty,
stores it, and drives the GPIO time-proportionally within the 2 s window. -/
def safety_set_ssr (s : SafetyState) (duty : ℚ) (now : Int) : SafetyState :=
  if s.emergency then { s with ssr_level := false }
  else
    let d := if duty < 0 then 0 else if duty > 1 then 1 else duty
    let elapsed0 := now - s.ssr_window_start_us
    let ws := if elapsed0 ≥ SSR_WINDOW_US then now else s.ssr_window_start_us
    let elapsed := if elapsed0 ≥ SSR_WINDOW_US then 0 else elapsed0
    let on_time := cTrunc (d * (SSR_WINDOW_US : ℚ))
    { s with ssr_duty := d, ssr_window_start_us := ws,
             ssr_level := decide (elapsed < on_time) }

/-- Mirror of one iteration of `safety_task` (safety.c, lines 218–256):
fault persistence check, over-temperature check, staleness check.  Returns
the new module state together with the task-local `last_valid_reading_us`. -/
def safety_task_step (s : SafetyState) (last_valid_us : Int)
    (reading : ThermocoupleReading) (now : Int) : SafetyState × Int :=
  let s1lv :=
    if reading.fault ≠ 0 then
      (if now - last_valid_us > TEMP_FAULT_TIMEOUT_US then
         safety_emergency_stop { s with temp_fault := true }
       else s, last_valid_us)
    else
      let s' := { s with temp_fault := false }
      (if reading.temperature_c > s'.max_safe_temp ∨
          reading.temperature_c > HARDWARE_MAX_TEMP_C
       then safety_emergency_stop s' else s', reading.timestamp_us)
  let s2 :=
    if reading.timestamp_us > 0 ∧ now - reading.timestamp_us > TEMP_FAULT_TIMEOUT_US then
      safety_emergency_stop { s1lv.1 with temp_fault := true }
    else s1lv.1
  (s2, s1lv.2)

/-- Mirror of `history_outcome_t`. -/
inductive HistoryOutcome
  | complete
  | error
  | aborted
  deriving Repr, DecidableEq

/-- Mirror of `history_record_t` (string fields omitted; they play no role in
the retention logic). -/
structure HistoryRecord where
  id : Nat
  start_time : Int
  peak_temp_c : ℚ
  duration_s : Nat
  outcome : HistoryOutcome
  error_code : Int
  deriving Repr, DecidableEq

/-- Constant `HISTORY_MAX_RECORDS`. -/
def HISTORY_MAX_RECORDS : Nat := 20

/-- A zero record (placeholder for total list indexing). -/
def defaultHistoryRecord : HistoryRecord :=
  { id := 0, start_time := 0, peak_temp_c := 0, duration_s := 0
    outcome := HistoryOutcome.complete, error_code := 0 }

/-- The history module's persistent state: the in-progress record, the decoded
content of `history.json` (newest first) and the set of ids whose
`trc_<id>.csv` file exists. -/
structure HistoryState where
  recording : Bool
  current : HistoryRecord
  stored : List HistoryRecord
  traces : List Nat
  deriving Repr, DecidableEq

/-- Mirror of `history_firing_end` (firing_history.c, lines 189–234): the
current record is finalized and prepended to the at-most-19 loaded records
(`load_records_from_json` is called with `HISTORY_MAX_RECORDS - 1`); when the
resulting count reaches 20 the trace file of `records[count-1]` is removed;
the resulting array is saved. -/
def history_firing_end (h : HistoryState) (outcome : HistoryOutcome)
    (peak_temp : ℚ) (duration_s : Nat) (error_code : Int) : HistoryState :=
  if ¬ h.recording then h
  else
    let cur := { h.current with
      outcome := outcome
      peak_temp_c :=
        if peak_temp > h.current.peak_temp_c then peak_temp else h.current.peak_temp_c
      duration_s := duration_s
      error_code := error_code }
    let loaded := h.stored.take (HISTORY_MAX_RECORDS - 1)
    let records := (cur :: loaded).take HISTORY_MAX_RECORDS
    let traces1 :=
      if records.length = HISTORY_MAX_RECORDS then
        h.traces.filter
          (fun i => i ≠ (records.getD (records.length - 1) defaultHistoryRecord).id)
      else h.traces
    { recording := false, current := cur, stored := records, traces := traces1 }

/-- Mirror of `firing_status_t`. -/
inductive FiringStatus
  | idle
  | heating
  | holding
  | cooling
  | complete
  | error
  | paused
  | autotune
  deriving Repr, DecidableEq

/-- Mirror of `firing_error_code_t`. -/
inductive FiringErrorCode
  | noError
  | emergencyStop
  | tempFault
  | overTemp
  | notRising
  | runaway
  | autotuneFailed
  | queueFull
  deriving Repr, DecidableEq

/-- Mirror of `firing_segment_t` (identification strings omitted). -/
structure FiringSegment where
  ramp_rate : ℚ
  target_temp : ℚ
  hold_time : Nat
  deriving Repr, DecidableEq

/-- Mirror of `firing_profile_t` (identification strings omitted). -/
structure FiringProfile where
  segments : List FiringSegment
  segment_count : Nat
  estimated_duration : Nat
  deriving Repr, DecidableEq

/-- A zero segment (placeholder for total list indexing). -/
def defaultSegment : FiringSegment :=
  { ramp_rate := 0, target_temp := 0, hold_time := 0 }

/-- Mirror of `firing_cmd_t`. -/
inductive FiringCmd
  | start (profile : FiringProfile) (delay_minutes : Nat)
  | stop
  | pause
  | resume
  | skipSegment
  | autotuneStart (setpoint : ℚ) (hysteresis : ℚ)
  | autotuneStop
  deriving Repr, DecidableEq

/-- Constant `RISING_CHECK_INTERVAL_US` — 15 minutes. -/
def RISING_CHECK_INTERVAL_US : Int := 15 * 60 * 1000000

/-- Constant `RISING_THRESHOLD_C` — required 15-minute rise. -/
def RISING_THRESHOLD_C : ℚ := 10

/-- Constant `RUNAWAY_RATE_MULTIPLIER`. -/
def RUNAWAY_RATE_MULTIPLIER : ℚ := 2

/-- Constant `HISTORY_SAMPLE_INTERVAL_US` — one minute. -/
def HISTORY_SAMPLE_INTERVAL_US : Int := 60 * 1000000

/-- Constant `ELEM_SAVE_INTERVAL_US` — five minutes. -/
def ELEM_SAVE_INTERVAL_US : Int := 5 * 60 * 1000000

/-- The firing engine's mutable state (the globals of firing_engine.c),
together with the safety module state it drives.  History and NVS side
effects are modelled separately (`HistoryState`, `PidNvs`). -/
structure EngineState where
  safety : SafetyState
  pid : PidController
  autotune : PidAutotune
  progress_is_active : Bool
  progress_status : FiringStatus
  progress_current_segment : Nat
  progress_total_segments : Nat
  progress_current_temp : ℚ
  progress_target_temp : ℚ
  progress_elapsed_time : Nat
  progress_estimated_remaining : Nat
  last_error_code : FiringErrorCode
  element_on_s : Nat
  tc_offset_c : ℚ
  active_profile : FiringProfile
  segment_start_time_us : Int
  segment_start_temp : ℚ
  segment_hold_start_time_s : ℚ
  holding : Bool
  delay_start_end_us : Int
  delay_active : Bool
  check_start_temp : ℚ
  check_start_time_us : Int
  last_history_sample_us : Int
  last_elem_save_us : Int
  last_compute_us : Int
  deriving Repr, DecidableEq

/-- Mirror of `start_segment`. -/
def start_segment (s : EngineState) (current_temp : ℚ) (now : Int) : EngineState :=
  { s with segment_start_time_us := now, segment_start_temp := current_temp
           holding := false, segment_hold_start_time_s := 0 }

/-- Mirror of `do_stop`: duty to 0, PID reset, inactive, `Idle`. -/
def do_stop (s : EngineState) (now : Int) : EngineState :=
  { s with safety := safety_set_ssr s.safety 0 now
           pid := pid_reset s.pid
           progress_is_active := false
           progress_status := FiringStatus.idle }

/-- Mirror of one `case` of the command-drain `switch` in `firing_task`
(firing_engine.c, lines 495–624). -/
def process_cmd (s : EngineState) (cmd : FiringCmd)
    (reading : ThermocoupleReading) (now : Int) : EngineState :=
  match cmd with
  | FiringCmd.start profile delay_minutes =>
      let s0 := { s with active_profile := profile }
      let cur_temp := reading.temperature_c + s0.tc_offset_c
      if delay_minutes > 0 then
        { s0 with delay_start_end_us := now + (delay_minutes : Int) * 60 * 1000000
                  delay_active := true
                  progress_is_active := true
                  progress_status := FiringStatus.idle
                  progress_current_segment := 0
                  progress_total_segments := profile.segment_count
                  progress_elapsed_time := 0
                  last_error_code := FiringErrorCode.noError }
      else
        let s1 := start_segment { s0 with delay_active := false } cur_temp now
        { s1 with pid := pid_reset s1.pid
                  check_start_temp := cur_temp
                  check_start_time_us := now
                  last_history_sample_us := now
                  progress_is_active := true
                  progress_status := FiringStatus.heating
                  progress_current_segment := 0
                  progress_total_segments := profile.segment_count
                  progress_elapsed_time := 0
                  last_error_code := FiringErrorCode.noError }
  | FiringCmd.stop =>
      do_stop { s with delay_active := false } now
  | FiringCmd.pause =>
      if s.progress_is_active = true ∧ s.progress_status ≠ FiringStatus.paused then
        { s with progress_status := FiringStatus.paused
                 safety := safety_set_ssr s.safety 0 now }
      else s
  | FiringCmd.resume =>
      if s.progress_status = FiringStatus.paused then
        { s with progress_status :=
            if s.holding then FiringStatus.holding else FiringStatus.heating }
      else s
  | FiringCmd.skipSegment =>
      if s.progress_is_active = true ∧
          s.progress_current_segment + 1 < s.progress_total_segments then
        let next := s.progress_current_segment + 1
        let s1 := start_segment s s.progress_current_temp now
        { s1 with progress_current_segment := next
                  progress_status :=
                    if (s1.active_profile.segments.getD next defaultSegment).ramp_rate ≥ 0
                    then FiringStatus.heating else FiringStatus.cooling }
      else if s.progress_is_active = true then
        let sf := safety_set_ssr s.safety 0 now
        { s with safety := { sf with firing_complete := true }
                 progress_is_active := false
                 progress_status := FiringStatus.complete }
      else s
  | FiringCmd.autotuneStart sp hy =>
      let at1 := (pid_autotune_start s.autotune sp hy now).2
      { s with autotune := at1
               progress_is_active := true
               progress_status := FiringStatus.autotune
               progress_elapsed_time := 0 }
  | FiringCmd.autotuneStop =>
      do_stop { s with autotune := pid_autotune_cancel s.autotune } now

/-- The two in-segment safety guards of `firing_task` (firing_engine.c,
lines 729–758): the kiln-not-rising window and the rate-of-rise runaway
check.  Both run only while `status == FIRING_STATUS_HEATING` and not
holding. -/
def tick_rising_guard (s : EngineState) (status : FiringStatus)
    (current_temp : ℚ) (now : Int) : EngineState :=
  if status = FiringStatus.heating ∧ s.holding = false ∧
      now - s.check_start_time_us ≥ RISING_CHECK_INTERVAL_US then
    let sa :=
      if current_temp - s.check_start_temp < RISING_THRESHOLD_C then
        { s with last_error_code := FiringErrorCode.notRising
                 safety := safety_emergency_stop s.safety }
      else s
    { sa with check_start_temp := current_temp, check_start_time_us := now }
  else s

def tick_runaway_guard (s : EngineState) (status : FiringStatus)
    (seg : FiringSegment) (current_temp : ℚ) (now : Int) : EngineState :=
  if status = FiringStatus.heating ∧ s.holding = false ∧ |seg.ramp_rate| > 1 / 10 then
    let elapsed_seg_s : ℚ := ((now - s.segment_start_time_us : Int) : ℚ) / 1000000
    if elapsed_seg_s > 300 then
      let actual_rate := (current_temp - s.segment_start_temp) / elapsed_seg_s * 3600
      if actual_rate > seg.ramp_rate * RUNAWAY_RATE_MULTIPLIER ∧ actual_rate > 50 then
        { s with last_error_code := FiringErrorCode.runaway
                 safety := safety_emergency_stop s.safety }
      else s
    else s
  else s

def tick_guards (s : EngineState) (status : FiringStatus) (seg : FiringSegment)
    (current_temp : ℚ) (now : Int) : EngineState :=
  tick_runaway_guard (tick_rising_guard s status current_temp now) status seg
    current_temp now

/-- The dynamic setpoint of a segment (firing_engine.c, lines 760–775):
ramp from the segment start temperature, clamped so it never overshoots the
target on the far side. -/
def dyn_setpoint (s : EngineState) (seg : FiringSegment) (now : Int) : ℚ :=
  if s.holding then seg.target_temp
  else
    let elapsed_seg_s : ℚ := ((now - s.segment_start_time_us : Int) : ℚ) / 1000000
    let sp := s.segment_start_temp + seg.ramp_rate / 3600 * elapsed_seg_s
    if seg.ramp_rate ≥ 0 then (if sp > seg.target_temp then seg.target_temp else sp)
    else (if sp < seg.target_temp then seg.target_temp else sp)

/-- The element-hours accumulation block (firing_engine.c, lines 781–788). -/
def tick_element_hours (s : EngineState) (output dt_s : ℚ) (now : Int) : EngineState :=
  if output > 0 then
    let sa := { s with element_on_s := s.element_on_s + (cTrunc dt_s).toNat }
    if now - sa.last_elem_save_us ≥ ELEM_SAVE_INTERVAL_US then
      { sa with last_elem_save_us := now }
    else sa
  else s

/-- The once-per-minute trace sampling block (lines 790–794; the file append
itself is a history-module side effect). -/
def tick_trace_sample (s : EngineState) (now : Int) : EngineState :=
  if now - s.last_history_sample_us ≥ HISTORY_SAMPLE_INTERVAL_US then
    { s with last_history_sample_us := now }
  else s

/-- The hold-entry block (lines 796–814): enter `Holding` when both the
measured and set temperatures are within band of the target. -/
def tick_hold_entry (s : EngineState) (seg : FiringSegment) (setpoint ct : ℚ)
    (now : Int) : EngineState :=
  if s.holding = false ∧ |ct - seg.target_temp| < 2 ∧ |setpoint - seg.target_temp| < 1 / 2 then
    { s with holding := true
             segment_hold_start_time_s := (now : ℚ) / 1000000
             progress_status := FiringStatus.holding }
  else s

/-- The hold-exit / segment-advance block (lines 816–854): a finite hold that
has elapsed advances to the next segment or completes the firing; a zero
`hold_time` never advances here. -/
def tick_hold_exit (s : EngineState) (seg : FiringSegment) (ct : ℚ)
    (now : Int) : EngineState :=
  if s.holding = true then
    if seg.hold_time > 0 ∧
        (now : ℚ) / 1000000 - s.segment_hold_start_time_s ≥ (seg.hold_time : ℚ) * 60 then
      let next_seg : Nat := s.progress_current_segment + 1
      if next_seg ≥ s.active_profile.segment_count then
        let sf := safety_set_ssr s.safety 0 now
        { s with safety := { sf with firing_complete := true }
                 progress_is_active := false
                 progress_status := FiringStatus.complete }
      else
        let sb := start_segment s ct now
        { sb with check_start_temp := ct
                  check_start_time_us := now
                  progress_current_segment := next_seg
                  progress_status :=
                    if (sb.active_profile.segments.getD next_seg defaultSegment).ramp_rate ≥ 0
                    then FiringStatus.heating else FiringStatus.cooling }
    else s
  else s

/-- The progress timing update (lines 856–866). -/
def tick_progress_timing (s : EngineState) (setpoint dt_s : ℚ) : EngineState :=
  { s with
      progress_elapsed_time := s.progress_elapsed_time + (cTrunc dt_s).toNat
      progress_target_temp := setpoint
      progress_estimated_remaining :=
        if s.active_profile.estimated_duration > 0 then
          (if s.progress_elapsed_time + (cTrunc dt_s).toNat <
              s.active_profile.estimated_duration * 60
           then s.active_profile.estimated_duration * 60 -
              (s.progress_elapsed_time + (cTrunc dt_s).toNat)
           else 0)
        else s.progress_estimated_remaining }

/-- The control tail of a normal firing tick (firing_engine.c, lines
760–866): dynamic setpoint, PID, SSR, element-hours, trace sampling, hold
entry/exit and segment advance, and the progress timing update. -/
def tick_control (s : EngineState) (seg : FiringSegment)
    (current_temp dt_s : ℚ) (now : Int) : EngineState :=
  let setpoint := dyn_setpoint s seg now
  let pr := pid_compute s.pid setpoint current_temp dt_s
  let s1 := { s with pid := pr.1, safety := safety_set_ssr s.safety pr.2 now }
  let s2 := tick_element_hours s1 pr.2 dt_s now
  let s3 := tick_trace_sample s2 now
  let s4 := tick_hold_entry s3 seg setpoint current_temp now
  let s5 := tick_hold_exit s4 seg current_temp now
  tick_progress_timing s5 setpoint dt_s

/-- The body of one `firing_task` loop iteration after the command drain
(firing_engine.c, lines 626–868). -/
def firing_tick_core (s0 : EngineState) (reading : ThermocoupleReading)
    (now : Int) : EngineState :=
  if s0.delay_active = true ∧ now < s0.delay_start_end_us then s0
  else
    let s :=
      if s0.delay_active = true then
        let cur_temp := reading.temperature_c + s0.tc_offset_c
        let s1 := start_segment { s0 with delay_active := false } cur_temp now
        { s1 with pid := pid_reset s1.pid
                  check_start_temp := cur_temp
                  check_start_time_us := now
                  last_history_sample_us := now
                  progress_status := FiringStatus.heating }
      else s0
    let current_temp := reading.temperature_c + s.tc_offset_c
    let dt_s : ℚ := ((now - s.last_compute_us : Int) : ℚ) / 1000000
    let s := { s with last_compute_us := now }
    if s.safety.emergency = true then
      if s.progress_is_active = true then
        let s1 := { s with
          progress_is_active := false
          progress_status := FiringStatus.error
          last_error_code :=
            if s.last_error_code = FiringErrorCode.noError then
              FiringErrorCode.emergencyStop
            else s.last_error_code }
        { s1 with safety := safety_set_ssr s1.safety 0 now }
      else { s with safety := safety_set_ssr s.safety 0 now }
    else
      let s := { s with progress_current_temp := current_temp }
      let status := s.progress_status
      if s.progress_is_active = false ∨ status = FiringStatus.paused ∨
          status = FiringStatus.idle ∨ status = FiringStatus.complete ∨
          status = FiringStatus.error then
        if status ≠ FiringStatus.paused then
          { s with safety := safety_set_ssr s.safety 0 now }
        else s
      else if status = FiringStatus.autotune then
        let upd := pid_autotune_update s.autotune current_temp now
        let s1 := { s with autotune := upd.1
                           safety := safety_set_ssr s.safety upd.2.1 now }
        let s2 := { s1 with
          progress_elapsed_time := s1.progress_elapsed_time + (cTrunc dt_s).toNat
          progress_target_temp := upd.1.setpoint }
        if upd.2.2 = true then
          if pid_autotune_is_complete upd.1 = true then
            do_stop { s2 with
              pid := pid_init upd.1.kp_result upd.1.ki_result upd.1.kd_result 0 1 } now
          else do_stop s2 now
        else s2
      else
        let seg := s.active_profile.segments.getD s.progress_current_segment defaultSegment
        let sg := tick_guards s status seg current_temp now
        tick_control sg seg current_temp dt_s now

/-- One full `firing_task` loop iteration: drain the command inbox, then run
the tick body. -/
def firing_tick (s : EngineState) (cmds : List FiringCmd)
    (reading : ThermocoupleReading) (now : Int) : EngineState :=
  firing_tick_core (cmds.foldl (fun acc c => process_cmd acc c reading now) s) reading now

/-- Mirror of the validation in `handle_autotune_start` (the HTTP caller,
lines 945–981 of the API handler file): a parsed setpoint above
`safety_get_max_temp()` is answered with HTTP 400 and no command is enqueued;
otherwise the command is sent to the engine's queue. -/
def handle_autotune_start (setpoint hysteresis max_temp : ℚ) : Option FiringCmd :=
  if setpoint > max_temp then none
  else some (FiringCmd.autotuneStart setpoint hysteresis)

/-- A safety state with the default 1300 °C ceiling and the SSR energised. -/
def sampleSafety : SafetyState :=
  { max_safe_temp := 1300, emergency := false, temp_fault := false
    firing_complete := false, ssr_duty := 1 / 2, ssr_window_start_us := 0
    ssr_level := true, vent_level := true }

/-- A history record with the given id and zeroed payload. -/
def mkHR (i : Nat) : HistoryRecord :=
  { id := i, start_time := 0, peak_temp_c := 0, duration_s := 0
    outcome := HistoryOutcome.complete, error_code := 0 }

/-- A full history: 20 stored records with ids 20..1 (newest first), record 21
being recorded, and trace files for ids 21..1. -/
def c6Pre : HistoryState :=
  { recording := true
    current := mkHR 21
    stored := [mkHR 20, mkHR 19, mkHR 18, mkHR 17, mkHR 16, mkHR 15, mkHR 14, mkHR 13,
               mkHR 12, mkHR 11, mkHR 10, mkHR 9, mkHR 8, mkHR 7, mkHR 6, mkHR 5,
               mkHR 4, mkHR 3, mkHR 2, mkHR 1]
    traces := [21, 20, 19, 18, 17, 16, 15, 14, 13, 12, 11, 10, 9, 8, 7, 6, 5, 4, 3, 2, 1] }

/-- A fault-free 20 °C reading taken at t = 1 s. -/
def reading20 : ThermocoupleReading :=
  { temperature_c := 20, internal_temp_c := 0, fault := 0, timestamp_us := 1000000 }

/-- The engine state after `firing_engine_init` (NVS empty, defaults loaded)
with the firing task's `last_compute_us` at `t0`. -/
def initialEngine (t0 : Int) : EngineState :=
  { safety := safety_init 1300
    pid := pid_init 2 (1 / 100) 50 0 1
    autotune := sampleAutotune
    progress_is_active := false
    progress_status := FiringStatus.idle
    progress_current_segment := 0
    progress_total_segments := 0
    progress_current_temp := 0
    progress_target_temp := 0
    progress_elapsed_time := 0
    progress_estimated_remaining := 0
    last_error_code := FiringErrorCode.noError
    element_on_s := 0
    tc_offset_c := 0
    active_profile := { segments := [], segment_count := 0, estimated_duration := 0 }
    segment_start_time_us := 0
    segment_start_temp := 0
    segment_hold_start_time_s := 0
    holding := false
    delay_start_end_us := 0
    delay_active := false
    check_start_temp := 0
    check_start_time_us := 0
    last_history_sample_us := 0
    last_elem_save_us := 0
    last_compute_us := t0 }

/-- A one-segment cooling profile: −150 °C/h down to 800 °C. -/
def c4CoolProfile : FiringProfile :=
  { segments := [{ ramp_rate := -150, target_temp := 800, hold_time := 10 }]
    segment_count := 1, estimated_duration := 0 }

/-- An active `Cooling` firing, segment entered at 1000 °C at t = 0. -/
def c4CoolState : EngineState :=
  { initialEngine 0 with
      progress_is_active := true
      progress_status := FiringStatus.cooling
      progress_total_segments := 1
      active_profile := c4CoolProfile
      segment_start_temp := 1000
      check_start_temp := 1000 }

/-- A fault-free 1100 °C reading taken at t = 400 s. -/
def reading1100 : ThermocoupleReading :=
  { temperature_c := 1100, internal_temp_c := 0, fault := 0, timestamp_us := 400000000 }

/-- A one-segment heating profile: +60 °C/h up to 1200 °C. -/
def c4HeatProfile : FiringProfile :=
  { segments := [{ ramp_rate := 60, target_temp := 1200, hold_time := 10 }]
    segment_count := 1, estimated_duration := 0 }

/-- An active `Heating` firing, segment entered at 1000 °C at t = 0. -/
def c4HeatState : EngineState :=
  { initialEngine 0 with
      progress_is_active := true
      progress_status := FiringStatus.heating
      progress_total_segments := 1
      active_profile := c4HeatProfile
      segment_start_temp := 1000
      check_start_temp := 1000 }

/-- A one-segment profile: +100 °C/h to 200 °C, infinite hold. -/
def c3Profile : FiringProfile :=
  { segments := [{ ramp_rate := 100, target_temp := 200, hold_time := 0 }]
    segment_count := 1, estimated_duration := 0 }

/-- The fields of the engine state that the hold-forever argument tracks. -/
def SameView (a b : EngineState) : Prop :=
  a.progress_current_segment = b.progress_current_segment ∧
  a.progress_status = b.progress_status ∧
  a.holding = b.holding ∧
  a.progress_is_active = b.progress_is_active ∧
  a.delay_active = b.delay_active ∧
  a.active_profile = b.active_profile ∧
  a.progress_total_segments = b.progress_total_segments

/-- The invariant maintained while an infinite hold (hold_minutes = 0) of
segment `k` of profile `P` is in progress, absent `SkipSegment`, `Stop`,
`Start` and auto-tune commands. -/
def C5Inv (k : Nat) (P : FiringProfile) (s : EngineState) : Prop :=
  s.delay_active = false ∧
  s.holding = true ∧
  s.progress_current_segment = k ∧
  s.progress_total_segments = P.segment_count ∧
  s.active_profile = P ∧
  (s.progress_status = FiringStatus.holding ∨ s.progress_status = FiringStatus.paused ∨
    s.progress_status = FiringStatus.error) ∧
  (s.progress_status = FiringStatus.error ↔ s.progress_is_active = false)

/-- Run a sequence of engine tick iterations; each step supplies the drained
commands, the cached reading and the current instant. -/
def runTicks (s : EngineState)
    (steps : List (List FiringCmd × ThermocoupleReading × Int)) : EngineState :=
  steps.foldl (fun a st => firing_tick a st.1 st.2.1 st.2.2) s

/-- An engine state holding the single (infinite-hold) segment of
`c3Profile` at its 200 °C target. -/
def c5HoldState : EngineState :=
  { initialEngine 0 with
      progress_is_active := true
      progress_status := FiringStatus.holding
      progress_total_segments := 1
      active_profile := c3Profile
      holding := true
      segment_start_temp := 200
      progress_current_temp := 200 }

/-! ## Claim theorems, supporting lemmas and witnesses -/

theorem cTrunc_intCast (n : Int) : cTrunc (n : ℚ) = n := by
  simp [cTrunc, Rat.num_intCast, Rat.den_intCast, Int.tdiv_one]

theorem cTrunc_zero : cTrunc 0 = 0 := by
  rw [show (0 : ℚ) = ((0 : ℤ) : ℚ) from by norm_num, cTrunc_intCast]

theorem cTrunc_one : cTrunc 1 = 1 := by
  rw [show (1 : ℚ) = ((1 : ℤ) : ℚ) from by norm_num, cTrunc_intCast]

theorem cTrunc_ofNat (n : ℕ) [n.AtLeastTwo] :
    cTrunc (no_index (OfNat.ofNat n) : ℚ) = OfNat.ofNat n := by
  rw [show (OfNat.ofNat n : ℚ) = ((OfNat.ofNat n : ℤ) : ℚ) from by push_cast; rfl,
    cTrunc_intCast]

theorem and_two_pow_ne_zero_iff (n i : Nat) :
    n &&& 2 ^ i ≠ 0 ↔ n.testBit i = true := by
  rw [Nat.and_two_pow]
  cases h : n.testBit i <;> simp [(Nat.two_pow_pos i).ne']

theorem and_one_ne_zero_iff (n : Nat) : n &&& 1 ≠ 0 ↔ n.testBit 0 = true := by
  have h : (1 : Nat) = 2 ^ 0 := by norm_num
  rw [h]
  exact and_two_pow_ne_zero_iff n 0

/-- A field below `2 ^ 13` has bit 13 clear; at or above it (but below
`2 ^ 14`) bit 13 is set. -/
theorem and_8192_ne_zero_iff {p : Nat} (hp : p < 16384) :
    (p &&& 8192 ≠ 0) ↔ 8192 ≤ p := by
  have h8192 : (8192 : Nat) = 2 ^ 13 := by norm_num
  rw [h8192, and_two_pow_ne_zero_iff, Nat.testBit_to_div_mod]
  have hdiv : p / 2 ^ 13 = if 8192 ≤ p then 1 else 0 := by
    split <;> omega
  rw [hdiv]
  split <;> simp_all

theorem and_2048_ne_zero_iff {p : Nat} (hp : p < 4096) :
    (p &&& 2048 ≠ 0) ↔ 2048 ≤ p := by
  have h2048 : (2048 : Nat) = 2 ^ 11 := by norm_num
  rw [h2048, and_two_pow_ne_zero_iff, Nat.testBit_to_div_mod]
  have hdiv : p / 2 ^ 11 = if 2048 ≤ p then 1 else 0 := by
    split <;> omega
  rw [hdiv]
  split <;> simp_all

theorem lor_49152_eq_add {p : Nat} (hp : p < 16384) : p ||| 49152 = p + 49152 := by
  have h : (2 : Nat) ^ 14 * 3 + p = 2 ^ 14 * 3 ||| p := by
    refine Nat.mul_add_lt_is_or ?_ 3
    norm_num at hp ⊢
    exact hp
  have h2 : (2 : Nat) ^ 14 * 3 = 49152 := by norm_num
  rw [h2] at h
  rw [Nat.lor_comm, ← h, Nat.add_comm]

theorem lor_61440_eq_add {p : Nat} (hp : p < 4096) : p ||| 61440 = p + 61440 := by
  have h : (2 : Nat) ^ 12 * 15 + p = 2 ^ 12 * 15 ||| p := by
    refine Nat.mul_add_lt_is_or ?_ 15
    norm_num at hp ⊢
    exact hp
  have h2 : (2 : Nat) ^ 12 * 15 = 61440 := by norm_num
  rw [h2] at h
  rw [Nat.lor_comm, ← h, Nat.add_comm]

/-- The C idiom `if (x & 0x2000) x |= 0xC000;` followed by the `int16_t`
reinterpretation computes exactly the 14-bit two's-complement value. -/
theorem i16_sext14 {p : Nat} (hp : p < 16384) :
    i16ofBits (if p &&& 0x2000 ≠ 0 then p ||| 0xC000 else p) = signExtendTC 14 p := by
  have h0x2000 : (0x2000 : Nat) = 8192 := by norm_num
  have h0xC000 : (0xC000 : Nat) = 49152 := by norm_num
  rw [h0x2000, h0xC000]
  by_cases hbit : p &&& 8192 ≠ 0
  · have hge : 8192 ≤ p := (and_8192_ne_zero_iff hp).mp hbit
    rw [if_pos hbit, lor_49152_eq_add hp]
    unfold i16ofBits signExtendTC
    have hmod : (p + 49152) % 65536 = p + 49152 := Nat.mod_eq_of_lt (by omega)
    rw [hmod, if_neg (by omega), if_neg (by norm_num; omega)]
    push_cast
    omega
  · have hlt : p < 8192 := by
      rcases Nat.lt_or_ge p 8192 with h | h
      · exact h
      · exact absurd ((and_8192_ne_zero_iff hp).mpr h) hbit
    rw [if_neg hbit]
    unfold i16ofBits signExtendTC
    have hmod : p % 65536 = p := Nat.mod_eq_of_lt (by omega)
    rw [hmod, if_pos (by omega), if_pos (by norm_num; omega)]

/-- Analogue of `i16_sext14` for the 12-bit cold-junction field. -/
theorem i16_sext12 {p : Nat} (hp : p < 4096) :
    i16ofBits (if p &&& 0x0800 ≠ 0 then p ||| 0xF000 else p) = signExtendTC 12 p := by
  have h0x0800 : (0x0800 : Nat) = 2048 := by norm_num
  have h0xF000 : (0xF000 : Nat) = 61440 := by norm_num
  rw [h0x0800, h0xF000]
  by_cases hbit : p &&& 2048 ≠ 0
  · have hge : 2048 ≤ p := (and_2048_ne_zero_iff hp).mp hbit
    rw [if_pos hbit, lor_61440_eq_add hp]
    unfold i16ofBits signExtendTC
    have hmod : (p + 61440) % 65536 = p + 61440 := Nat.mod_eq_of_lt (by omega)
    rw [hmod, if_neg (by omega), if_neg (by norm_num; omega)]
    push_cast
    omega
  · have hlt : p < 2048 := by
      rcases Nat.lt_or_ge p 2048 with h | h
      · exact h
      · exact absurd ((and_2048_ne_zero_iff hp).mpr h) hbit
    rw [if_neg hbit]
    unfold i16ofBits signExtendTC
    have hmod : p % 65536 = p := Nat.mod_eq_of_lt (by omega)
    rw [hmod, if_pos (by omega), if_pos (by norm_num; omega)]

theorem shift_mask_14 (raw : Nat) : (raw >>> 18) &&& 0x3FFF = frameField raw 18 14 := by
  have h : (0x3FFF : Nat) = 2 ^ 14 - 1 := by norm_num
  rw [h, Nat.and_pow_two_sub_one_eq_mod, Nat.shiftRight_eq_div_pow, frameField]

theorem shift_mask_12 (raw : Nat) : (raw >>> 4) &&& 0x0FFF = frameField raw 4 12 := by
  have h : (0x0FFF : Nat) = 2 ^ 12 - 1 := by norm_num
  rw [h, Nat.and_pow_two_sub_one_eq_mod, Nat.shiftRight_eq_div_pow, frameField]

/-- C2: for every 32-bit SPI frame, bit 16 set yields a zeroed reading whose
fault flags reproduce frame bits 0..2; otherwise the thermocouple value is the
sign-extended 14-bit two's-complement field of bits 31..18 times 0.25 °C, and
the cold junction the sign-extended 12-bit field of bits 15..4 times 0.0625 °C. -/
theorem C2_spi_frame_decode (raw : Nat) (now_us : Int) :
    (raw.testBit 16 = true →
      (thermocouple_read raw now_us).temperature_c = 0 ∧
      (thermocouple_read raw now_us).internal_temp_c = 0 ∧
      (thermocouple_read raw now_us).fault.testBit 0 = raw.testBit 0 ∧
      (thermocouple_read raw now_us).fault.testBit 1 = raw.testBit 1 ∧
      (thermocouple_read raw now_us).fault.testBit 2 = raw.testBit 2) ∧
    (raw.testBit 16 = false →
      (thermocouple_read raw now_us).temperature_c
        = (signExtendTC 14 (frameField raw 18 14) : ℚ) * (1 / 4) ∧
      (thermocouple_read raw now_us).internal_temp_c
        = (signExtendTC 12 (frameField raw 4 12) : ℚ) * (1 / 16)) := by
  have hbit16 : raw &&& (1 <<< 16) ≠ 0 ↔ raw.testBit 16 = true := by
    have h : (1 <<< 16 : Nat) = 2 ^ 16 := by decide
    rw [h, and_two_pow_ne_zero_iff]
  constructor
  · intro h16
    have hc : raw &&& (1 <<< 16) ≠ 0 := hbit16.mpr h16
    have hb0 : (raw &&& 1 ≠ 0) ↔ raw.testBit 0 = true := and_one_ne_zero_iff raw
    have hb1 : (raw &&& 2 ≠ 0) ↔ raw.testBit 1 = true := by
      have h : (2 : Nat) = 2 ^ 1 := by norm_num
      rw [h, and_two_pow_ne_zero_iff]
    have hb2 : (raw &&& 4 ≠ 0) ↔ raw.testBit 2 = true := by
      have h : (4 : Nat) = 2 ^ 2 := by norm_num
      rw [h, and_two_pow_ne_zero_iff]
    unfold thermocouple_read
    rw [if_pos hc]
    have hif0 : (if raw &&& 1 ≠ 0 then TC_FAULT_OPEN_CIRCUIT else 0)
        = if raw.testBit 0 = true then 1 else 0 := by
      simp only [TC_FAULT_OPEN_CIRCUIT, hb0]
    have hif1 : (if raw &&& 2 ≠ 0 then TC_FAULT_SHORT_GND else 0)
        = if raw.testBit 1 = true then 2 else 0 := by
      simp only [TC_FAULT_SHORT_GND, hb1]
    have hif2 : (if raw &&& 4 ≠ 0 then TC_FAULT_SHORT_VCC else 0)
        = if raw.testBit 2 = true then 4 else 0 := by
      simp only [TC_FAULT_SHORT_VCC, hb2]
    refine ⟨rfl, rfl, ?_, ?_, ?_⟩ <;>
      simp only [hif0, hif1, hif2] <;>
      cases h0 : raw.testBit 0 <;> cases h1 : raw.testBit 1 <;>
        cases h2 : raw.testBit 2 <;>
        simp only [h0, h1, h2, if_true, if_false, Bool.false_eq_true, if_neg,
          Bool.true_eq_false, not_false_iff, ite_true, ite_false] <;>
        decide
  · intro h16
    have hc : ¬ raw &&& (1 <<< 16) ≠ 0 := by
      rw [hbit16, h16]; simp
    unfold thermocouple_read
    rw [if_neg hc]
    have htc : (raw >>> 18) &&& 0x3FFF < 16384 := by
      have := Nat.and_le_right (n := raw >>> 18) (m := 0x3FFF)
      omega
    have hin : (raw >>> 4) &&& 0x0FFF < 4096 := by
      have := Nat.and_le_right (n := raw >>> 4) (m := 0x0FFF)
      omega
    constructor
    · show (i16ofBits _ : ℚ) * (1 / 4) = _
      rw [i16_sext14 htc, shift_mask_14]
    · show (i16ofBits _ : ℚ) * (1 / 16) = _
      rw [i16_sext12 hin, shift_mask_12]

theorem save_load_component (q : ℚ) (n : ℤ) (hq : q * 10000 = (n : ℚ))
    (hlo : -(2 ^ 31) ≤ n) (hhi : n < 2 ^ 31) :
    ((toInt32 (cTrunc (q * 10000)) : ℚ) / 10000) = q := by
  rw [hq, cTrunc_intCast]
  have h2 : toInt32 n = n := by
    unfold toInt32
    omega
  rw [h2, ← hq]
  field_simp

/-- C8 (counterexample to the claim as stated): the gain `Kp = 0.00005`
scales to `0.5`, which the `(int32_t)` cast truncates to `0`; reloading yields
`0`, not the original gain.  Save-then-load is *not* the identity on every
triple of gains. -/
theorem C8_roundtrip_counterexample :
    pid_load_gains (pid_save_gains (1 / 20000) 2 50) ≠ (1 / 20000, 2, 50) := by
  intro h
  have h1 := congrArg (fun p => p.1) h
  simp only [pid_load_gains, pid_save_gains] at h1
  rw [show ((1 : ℚ) / 20000 * 10000) = ((1 : ℚ) / 2) from by norm_num] at h1
  have hc : cTrunc ((1 : ℚ) / 2) = 0 := by
    unfold cTrunc
    norm_num
    decide
  rw [hc] at h1
  have ht : toInt32 0 = 0 := by
    unfold toInt32
    omega
  rw [ht] at h1
  norm_num at h1

/-- C8 (amended): save-then-load is the identity exactly on gains that are
integer multiples of 1/10000 whose scaled value fits in `int32_t`; in general
each gain is quantized to `trunc(g·10000)/10000` by the store. -/
theorem C8_roundtrip_on_scaled_gains (kp ki kd : ℚ) (nkp nki nkd : ℤ)
    (hkp : kp * 10000 = (nkp : ℚ))
    (hkp_lo : -(2 ^ 31) ≤ nkp) (hkp_hi : nkp < 2 ^ 31)
    (hki : ki * 10000 = (nki : ℚ))
    (hki_lo : -(2 ^ 31) ≤ nki) (hki_hi : nki < 2 ^ 31)
    (hkd : kd * 10000 = (nkd : ℚ))
    (hkd_lo : -(2 ^ 31) ≤ nkd) (hkd_hi : nkd < 2 ^ 31) :
    pid_load_gains (pid_save_gains kp ki kd) = (kp, ki, kd) := by
  unfold pid_load_gains pid_save_gains
  simp only
  rw [save_load_component kp nkp hkp hkp_lo hkp_hi,
      save_load_component ki nki hki hki_lo hki_hi,
      save_load_component kd nkd hkd hkd_lo hkd_hi]

/-- C8 witness: the default gains (2, 0.01, 50) survive the round trip. -/
theorem C8_roundtrip_witness :
    pid_load_gains (pid_save_gains 2 (1 / 100) 50) = (2, 1 / 100, 50) :=
  C8_roundtrip_on_scaled_gains 2 (1 / 100) 50 20000 100 500000
    (by norm_num) (by norm_num) (by norm_num)
    (by norm_num) (by norm_num) (by norm_num)
    (by norm_num) (by norm_num) (by norm_num)

/-- C10: `pid_autotune_start` rejects a non-positive setpoint or hysteresis
with `ESP_ERR_INVALID_ARG` leaving the state untouched, and otherwise returns
`ESP_OK` with phase `HeatingToSetpoint`, `cycles_needed = 5`,
`cycles_done = 0`, the relay on, and the 60-minute timeout. -/
theorem C10_autotune_start_contract (at0 : PidAutotune) (sp hy : ℚ) (now : Int) :
    ((sp ≤ 0 ∨ hy ≤ 0) → pid_autotune_start at0 sp hy now = (EspErr.invalidArg, at0)) ∧
    (0 < sp → 0 < hy →
      (pid_autotune_start at0 sp hy now).1 = EspErr.ok ∧
      (pid_autotune_start at0 sp hy now).2.state = AutotuneState.heatingToSetpoint ∧
      (pid_autotune_start at0 sp hy now).2.setpoint = sp ∧
      (pid_autotune_start at0 sp hy now).2.hysteresis = hy ∧
      (pid_autotune_start at0 sp hy now).2.cycles_needed = 5 ∧
      (pid_autotune_start at0 sp hy now).2.cycles_done = 0 ∧
      (pid_autotune_start at0 sp hy now).2.relay_on = true ∧
      (pid_autotune_start at0 sp hy now).2.timeout_us = 60 * 60 * 1000000 ∧
      (pid_autotune_start at0 sp hy now).2.start_time_us = now) := by
  constructor
  · intro h
    unfold pid_autotune_start
    rw [if_pos h]
  · intro hsp hhy
    have h : ¬(sp ≤ 0 ∨ hy ≤ 0) := by push_neg; exact ⟨hsp, hhy⟩
    unfold pid_autotune_start
    rw [if_neg h]
    exact ⟨rfl, rfl, rfl, rfl, rfl, rfl, rfl, rfl, rfl⟩

/-- C7: in the relay-cycling phase with `cycles_needed = 5`, exceeding the
60-minute timeout fails the experiment with output 0; otherwise a setpoint
crossing that completes the 5th cycle averages the committed amplitudes and
periods into `a` and `T_u` and, provided `a ≥ 0.1`, produces the
Ziegler–Nichols gains `Kp = 0.6·K_u`, `Ki = 1.2·K_u/T_u`, `Kd = 0.075·K_u·T_u`
with `K_u = 4/(π·a)` and enters `Complete`; with `a < 0.1` it enters `Failed`. -/
theorem C7_autotune_fifth_cycle (at0 : PidAutotune) (t : ℚ) (now : Int)
    (hstate : at0.state = AutotuneState.relayCycling)
    (hneeded : at0.cycles_needed = 5) :
    (at0.timeout_us = 60 * 60 * 1000000 →
      now - at0.start_time_us > 60 * 60 * 1000000 →
      pid_autotune_update at0 t now
        = ({ at0 with state := AutotuneState.failed }, 0, true)) ∧
    (now - at0.start_time_us ≤ at0.timeout_us →
      at0.cycles_done = 4 →
      at0.half_cycles = 1 →
      decide (t > at0.setpoint) ≠ at0.above_setpoint →
      ((1 / 10 ≤ autotuneMeanAmp at0 t →
        (pid_autotune_update at0 t now).1.state = AutotuneState.complete ∧
        (pid_autotune_update at0 t now).1.kp_result
          = 6 / 10 * (4 / (M_PI_F * autotuneMeanAmp at0 t)) ∧
        (pid_autotune_update at0 t now).1.ki_result
          = 12 / 10 * (4 / (M_PI_F * autotuneMeanAmp at0 t))
              / autotuneMeanPeriod at0 now ∧
        (pid_autotune_update at0 t now).1.kd_result
          = 75 / 1000 * (4 / (M_PI_F * autotuneMeanAmp at0 t))
              * autotuneMeanPeriod at0 now ∧
        (pid_autotune_update at0 t now).2 = (0, true)) ∧
       (autotuneMeanAmp at0 t < 1 / 10 →
        (pid_autotune_update at0 t now).1.state = AutotuneState.failed ∧
        (pid_autotune_update at0 t now).2 = (0, true)))) := by
  have hns : ¬(at0.state = AutotuneState.complete ∨ at0.state = AutotuneState.failed ∨
      at0.state = AutotuneState.idle) := by
    rw [hstate]; simp
  have hnh : ¬(at0.state = AutotuneState.heatingToSetpoint) := by
    rw [hstate]; simp
  constructor
  · intro htu htime
    unfold pid_autotune_update
    rw [if_neg hns, htu, if_pos htime]
  · intro hto h4 h1 hcross
    have hred : pid_autotune_update at0 t now =
        (if (at0.amplitude_sum +
              ((if t > at0.peak_high then t else at0.peak_high) -
               (if t < at0.peak_low then t else at0.peak_low)) / 2)
              / (((4 : Nat) + 1 : Nat) : ℚ) < 1 / 10 then
          ({ at0 with
               peak_high := t, peak_low := t
               above_setpoint := decide (t > at0.setpoint)
               half_cycles := 0, last_crossing_us := now
               period_sum_s := at0.period_sum_s +
                 ((now - at0.last_crossing_us : Int) : ℚ) / 1000000
               amplitude_sum := at0.amplitude_sum +
                 ((if t > at0.peak_high then t else at0.peak_high) -
                  (if t < at0.peak_low then t else at0.peak_low)) / 2
               cycles_done := 4 + 1
               state := AutotuneState.failed }, 0, true)
        else
          ({ at0 with
               peak_high := t, peak_low := t
               above_setpoint := decide (t > at0.setpoint)
               half_cycles := 0, last_crossing_us := now
               period_sum_s := at0.period_sum_s +
                 ((now - at0.last_crossing_us : Int) : ℚ) / 1000000
               amplitude_sum := at0.amplitude_sum +
                 ((if t > at0.peak_high then t else at0.peak_high) -
                  (if t < at0.peak_low then t else at0.peak_low)) / 2
               cycles_done := 4 + 1
               state := AutotuneState.complete
               kp_result := 6 / 10 * (4 / (M_PI_F *
                 ((at0.amplitude_sum +
                   ((if t > at0.peak_high then t else at0.peak_high) -
                    (if t < at0.peak_low then t else at0.peak_low)) / 2)
                  / (((4 : Nat) + 1 : Nat) : ℚ))))
               ki_result := 12 / 10 * (4 / (M_PI_F *
                 ((at0.amplitude_sum +
                   ((if t > at0.peak_high then t else at0.peak_high) -
                    (if t < at0.peak_low then t else at0.peak_low)) / 2)
                  / (((4 : Nat) + 1 : Nat) : ℚ))))
                 / ((at0.period_sum_s +
                     ((now - at0.last_crossing_us : Int) : ℚ) / 1000000)
                    / (((4 : Nat) + 1 : Nat) : ℚ))
               kd_result := 75 / 1000 * (4 / (M_PI_F *
                 ((at0.amplitude_sum +
                   ((if t > at0.peak_high then t else at0.peak_high) -
                    (if t < at0.peak_low then t else at0.peak_low)) / 2)
                  / (((4 : Nat) + 1 : Nat) : ℚ))))
                 * ((at0.period_sum_s +
                     ((now - at0.last_crossing_us : Int) : ℚ) / 1000000)
                    / (((4 : Nat) + 1 : Nat) : ℚ)) }, 0, true)) := by
      unfold pid_autotune_update
      rw [if_neg hns, if_neg (not_lt.mpr hto), if_neg hnh, if_pos hstate]
      try dsimp only []
      rw [if_pos hcross, h1]
      rw [if_pos (by norm_num : (1 : Nat) + 1 ≥ 2)]
      try dsimp only []
      rw [h4, hneeded]
      rw [if_pos (by norm_num : (4 : Nat) + 1 ≥ 5)]
    have hcast : (((4 : Nat) + 1 : Nat) : ℚ) = 5 := by norm_num
    have hamp : (at0.amplitude_sum +
        ((if t > at0.peak_high then t else at0.peak_high) -
         (if t < at0.peak_low then t else at0.peak_low)) / 2)
        / (((4 : Nat) + 1 : Nat) : ℚ) = autotuneMeanAmp at0 t := by
      rw [hcast, autotuneMeanAmp]
    have hper : (at0.period_sum_s +
        ((now - at0.last_crossing_us : Int) : ℚ) / 1000000)
        / (((4 : Nat) + 1 : Nat) : ℚ) = autotuneMeanPeriod at0 now := by
      rw [hcast, autotuneMeanPeriod]
    rw [hamp, hper] at hred
    constructor
    · intro hge
      rw [hred, if_neg (not_lt.mpr hge)]
      exact ⟨rfl, rfl, rfl, rfl, rfl⟩
    · intro hlt
      rw [hred, if_pos hlt]
      exact ⟨rfl, rfl⟩

/-- C7 witness: a downward crossing at 495 °C after 100 s commits the fifth
cycle with mean amplitude 5 °C and mean period 100 s and completes with the
Ziegler–Nichols gains; at 4000 s the same state instead times out. -/
theorem C7_autotune_fifth_cycle_witness :
    (pid_autotune_update relayAutotune 495 100000000).1.state
      = AutotuneState.complete ∧
    (pid_autotune_update relayAutotune 495 100000000).1.kp_result
      = 6 / 10 * (4 / (M_PI_F * 5)) ∧
    (pid_autotune_update relayAutotune 495 100000000).1.ki_result
      = 12 / 10 * (4 / (M_PI_F * 5)) / 100 ∧
    (pid_autotune_update relayAutotune 495 4000000000).1.state
      = AutotuneState.failed := by
  have hamp : autotuneMeanAmp relayAutotune 495 = 5 := by
    norm_num [autotuneMeanAmp, relayAutotune]
  have hper : autotuneMeanPeriod relayAutotune 100000000 = 100 := by
    norm_num [autotuneMeanPeriod, relayAutotune]
  have h := (C7_autotune_fifth_cycle relayAutotune 495 100000000 rfl rfl).2
    (by norm_num [relayAutotune]) rfl rfl
    (by norm_num [relayAutotune])
  rw [hamp, hper] at h
  have hc := h.1 (by norm_num)
  refine ⟨hc.1, hc.2.1, hc.2.2.1, ?_⟩
  have ht := (C7_autotune_fifth_cycle relayAutotune 495 4000000000 rfl rfl).1
    rfl (by norm_num [relayAutotune])
  rw [ht]

/-- C10 witness: a negative setpoint is rejected without touching the state;
setpoint 500 with hysteresis 5 starts the experiment. -/
theorem C10_autotune_start_witness :
    pid_autotune_start sampleAutotune (-1) 5 0 = (EspErr.invalidArg, sampleAutotune) ∧
    (pid_autotune_start sampleAutotune 500 5 12345).1 = EspErr.ok ∧
    (pid_autotune_start sampleAutotune 500 5 12345).2.cycles_needed = 5 ∧
    (pid_autotune_start sampleAutotune 500 5 12345).2.relay_on = true := by
  refine ⟨(C10_autotune_start_contract sampleAutotune (-1) 5 0).1 (Or.inl (by norm_num)),
    ?_, ?_, ?_⟩
  · exact ((C10_autotune_start_contract sampleAutotune 500 5 12345).2
      (by norm_num) (by norm_num)).1
  · exact ((C10_autotune_start_contract sampleAutotune 500 5 12345).2
      (by norm_num) (by norm_num)).2.2.2.2.1
  · exact ((C10_autotune_start_contract sampleAutotune 500 5 12345).2
      (by norm_num) (by norm_num)).2.2.2.2.2.2.1

/-- Decoded readings report temperature 0 whenever any fault bit is set
(thermocouple.c zeroes both temperatures on the fault path). -/
theorem thermocouple_read_fault_zero (raw : Nat) (now_us : Int) :
    (thermocouple_read raw now_us).fault ≠ 0 →
    (thermocouple_read raw now_us).temperature_c = 0 := by
  intro h
  unfold thermocouple_read at h ⊢
  by_cases hc : raw &&& (1 <<< 16) ≠ 0
  · rw [if_pos hc]
  · rw [if_neg hc] at h
    exact absurd rfl h

/-- C1: a supervisor step whose latest reading is fault-free with temperature
above `min(max_safe_temp, 1400)` latches the emergency bit, drives the SSR
low and zeroes the stored duty by the end of that 500 ms step.  The
well-formedness hypothesis (`fault ≠ 0 → temperature = 0`) holds for every
decoded frame by `thermocouple_read_fault_zero`. -/
theorem C1_overtemp_emergency (s : SafetyState) (lv : Int)
    (r : ThermocoupleReading) (now : Int)
    (hwf : r.fault ≠ 0 → r.temperature_c = 0)
    (hms : 0 ≤ s.max_safe_temp)
    (hover : min s.max_safe_temp HARDWARE_MAX_TEMP_C < r.temperature_c) :
    (safety_task_step s lv r now).1.emergency = true ∧
    (safety_task_step s lv r now).1.ssr_level = false ∧
    (safety_task_step s lv r now).1.ssr_duty = 0 := by
  have hf : r.fault = 0 := by
    by_contra hf
    rw [hwf hf] at hover
    rcases min_lt_iff.mp hover with h | h
    · exact absurd h (not_lt.mpr hms)
    · exact absurd h (by norm_num [HARDWARE_MAX_TEMP_C])
  have hcond : r.temperature_c > s.max_safe_temp ∨
      r.temperature_c > HARDWARE_MAX_TEMP_C := min_lt_iff.mp hover
  unfold safety_task_step
  rw [if_neg (by simp [hf])]
  dsimp only
  rw [if_pos hcond]
  by_cases hst : r.timestamp_us > 0 ∧ now - r.timestamp_us > TEMP_FAULT_TIMEOUT_US
  · rw [if_pos hst]
    exact ⟨rfl, rfl, rfl⟩
  · rw [if_neg hst]
    exact ⟨rfl, rfl, rfl⟩

/-- C1 witness: the frame `1469054976 = 5604 · 2¹⁸` encoding 1401 °C decodes
fault-free and trips the supervisor step. -/
theorem C1_overtemp_emergency_witness :
    (safety_task_step sampleSafety 0 (thermocouple_read 1469054976 1000) 2000).1.emergency
      = true ∧
    (safety_task_step sampleSafety 0 (thermocouple_read 1469054976 1000) 2000).1.ssr_level
      = false := by
  have ht : (thermocouple_read 1469054976 1000).temperature_c = 1401 := by
    unfold thermocouple_read
    rw [if_neg (by decide : ¬((1469054976 : Nat) &&& 1 <<< 16 ≠ 0))]
    dsimp only
    rw [show (1469054976 : Nat) >>> 18 &&& 0x3FFF = 5604 from by decide]
    rw [if_neg (by decide : ¬((5604 : Nat) &&& 0x2000 ≠ 0))]
    rw [show i16ofBits 5604 = 5604 from by decide]
    norm_num
  have h := C1_overtemp_emergency sampleSafety 0 (thermocouple_read 1469054976 1000) 2000
    (thermocouple_read_fault_zero 1469054976 1000)
    (by norm_num [sampleSafety])
    (by rw [ht]; norm_num [sampleSafety, HARDWARE_MAX_TEMP_C])
  exact ⟨h.1, h.2.1⟩

/-- C6: ending a firing against a full history evicts the record with the
oldest id (1) from the stored deque, but erases the trace file of the oldest
*retained* record (id 2) and leaves the evicted record's trace file (id 1) on
disk — contradicting both the claim and the code's own comment
`Delete oldest trace if we exceeded the limit`. -/
theorem C6_trace_eviction_bug :
    ((history_firing_end c6Pre HistoryOutcome.complete 1000 3600 0).stored.map
        (fun rec => rec.id)
      = [21, 20, 19, 18, 17, 16, 15, 14, 13, 12, 11, 10, 9, 8, 7, 6, 5, 4, 3, 2]) ∧
    ((history_firing_end c6Pre HistoryOutcome.complete 1000 3600 0).stored.length
      = 20) ∧
    ((history_firing_end c6Pre HistoryOutcome.complete 1000 3600 0).traces.contains 1
      = true) ∧
    ((history_firing_end c6Pre HistoryOutcome.complete 1000 3600 0).traces.contains 2
      = false) := by
  norm_num [history_firing_end, c6Pre, mkHR, HISTORY_MAX_RECORDS, defaultHistoryRecord]

/-- C9 (counterexample to the claim as stated): the engine's
`FIRING_CMD_AUTOTUNE_START` handler performs no `max_safe_temp` comparison
and ignores `pid_autotune_start`'s result: a setpoint of 1500 °C against the
1300 °C ceiling still enters `Autotune`. -/
theorem C9_engine_autotune_counterexample :
    (process_cmd (initialEngine 0) (FiringCmd.autotuneStart 1500 5) reading20 0).progress_status
      = FiringStatus.autotune ∧
    (initialEngine 0).safety.max_safe_temp = 1300 := by
  constructor
  · rfl
  · norm_num [initialEngine, safety_init, HARDWARE_MAX_TEMP_C]

/-- C9 (amended): only the HTTP caller checks the setpoint — a setpoint above
`safety_get_max_temp()` is rejected there and no command is enqueued — while
the engine-side handler enters `Autotune` for every `AutotuneStart` command it
receives, with no `max_safe_temp` check. -/
theorem C9_autotune_rejection_amended :
    (∀ sp hy mt : ℚ, sp > mt → handle_autotune_start sp hy mt = none) ∧
    (∀ (s : EngineState) (sp hy : ℚ) (r : ThermocoupleReading) (now : Int),
      (process_cmd s (FiringCmd.autotuneStart sp hy) r now).progress_status
        = FiringStatus.autotune ∧
      (process_cmd s (FiringCmd.autotuneStart sp hy) r now).progress_is_active = true) := by
  constructor
  · intro sp hy mt h
    unfold handle_autotune_start
    rw [if_pos h]
  · intro s sp hy r now
    exact ⟨rfl, rfl⟩

/-- C9 witness: the HTTP side rejects 1500 °C against a 1300 °C ceiling; the
engine side enters `Autotune` for the same command. -/
theorem C9_autotune_rejection_witness :
    handle_autotune_start 1500 5 1300 = none ∧
    (process_cmd (initialEngine 0) (FiringCmd.autotuneStart 1500 5) reading20 0).progress_status
      = FiringStatus.autotune := by
  refine ⟨C9_autotune_rejection_amended.1 1500 5 1300 (by norm_num), ?_⟩
  exact (C9_autotune_rejection_amended.2 (initialEngine 0) 1500 5 reading20 0).1

theorem safety_set_ssr_emergency (s : SafetyState) (d : ℚ) (now : Int)
    (h : s.emergency = true) :
    safety_set_ssr s d now = { s with ssr_level := false } := by
  unfold safety_set_ssr
  rw [if_pos h]

theorem safety_set_ssr_emergency_eq (s : SafetyState) (d : ℚ) (now : Int) :
    (safety_set_ssr s d now).emergency = s.emergency := by
  unfold safety_set_ssr
  split_ifs <;> rfl

theorem tick_element_hours_keeps (s : EngineState) (o dt : ℚ) (now : Int) :
    (tick_element_hours s o dt now).safety = s.safety ∧
    (tick_element_hours s o dt now).last_error_code = s.last_error_code := by
  unfold tick_element_hours
  dsimp only
  split_ifs <;> exact ⟨rfl, rfl⟩

theorem tick_trace_sample_keeps (s : EngineState) (now : Int) :
    (tick_trace_sample s now).safety = s.safety ∧
    (tick_trace_sample s now).last_error_code = s.last_error_code := by
  unfold tick_trace_sample
  split_ifs <;> exact ⟨rfl, rfl⟩

theorem tick_hold_entry_keeps (s : EngineState) (seg : FiringSegment)
    (sp ct : ℚ) (now : Int) :
    (tick_hold_entry s seg sp ct now).safety = s.safety ∧
    (tick_hold_entry s seg sp ct now).last_error_code = s.last_error_code := by
  unfold tick_hold_entry
  split_ifs <;> exact ⟨rfl, rfl⟩

theorem tick_hold_exit_keeps (s : EngineState) (seg : FiringSegment)
    (ct : ℚ) (now : Int) :
    (tick_hold_exit s seg ct now).safety.emergency = s.safety.emergency ∧
    (tick_hold_exit s seg ct now).last_error_code = s.last_error_code := by
  unfold tick_hold_exit
  dsimp only
  split_ifs <;> simp [safety_set_ssr_emergency_eq, start_segment]

theorem tick_progress_timing_keeps (s : EngineState) (sp dt : ℚ) :
    (tick_progress_timing s sp dt).safety = s.safety ∧
    (tick_progress_timing s sp dt).last_error_code = s.last_error_code :=
  ⟨rfl, rfl⟩

/-- The control tail never changes the emergency bit or `last_error_code`. -/
theorem tick_control_keeps_emergency (s : EngineState) (seg : FiringSegment)
    (ct dt : ℚ) (now : Int) :
    (tick_control s seg ct dt now).safety.emergency = s.safety.emergency ∧
    (tick_control s seg ct dt now).last_error_code = s.last_error_code := by
  unfold tick_control
  dsimp only
  constructor
  · rw [(tick_progress_timing_keeps _ _ _).1,
      (tick_hold_exit_keeps _ _ _ _).1,
      (tick_hold_entry_keeps _ _ _ _ _).1,
      (tick_trace_sample_keeps _ _).1,
      (tick_element_hours_keeps _ _ _ _).1]
    exact safety_set_ssr_emergency_eq s.safety _ now
  · rw [(tick_progress_timing_keeps _ _ _).2,
      (tick_hold_exit_keeps _ _ _ _).2,
      (tick_hold_entry_keeps _ _ _ _ _).2,
      (tick_trace_sample_keeps _ _).2,
      (tick_element_hours_keeps _ _ _ _).2]

/-- Under `Heating`, not holding, with the claim's rate conditions the guard
pass emergency-stops with `Runaway` (the not-rising window may or may not
fire first; `Runaway` overwrites the error code either way). -/
theorem tick_guards_runaway (s : EngineState) (seg : FiringSegment)
    (ct : ℚ) (now : Int)
    (hhold : s.holding = false)
    (hramp : |seg.ramp_rate| > 1 / 10)
    (helaps : ((now - s.segment_start_time_us : Int) : ℚ) / 1000000 > 300)
    (hrate1 : (ct - s.segment_start_temp) /
        (((now - s.segment_start_time_us : Int) : ℚ) / 1000000) * 3600 >
        seg.ramp_rate * RUNAWAY_RATE_MULTIPLIER)
    (hrate2 : (ct - s.segment_start_temp) /
        (((now - s.segment_start_time_us : Int) : ℚ) / 1000000) * 3600 > 50) :
    (tick_guards s FiringStatus.heating seg ct now).safety.emergency = true ∧
    (tick_guards s FiringStatus.heating seg ct now).last_error_code
      = FiringErrorCode.runaway := by
  have hrising : (tick_rising_guard s FiringStatus.heating ct now).holding = s.holding ∧
      (tick_rising_guard s FiringStatus.heating ct now).segment_start_time_us
        = s.segment_start_time_us ∧
      (tick_rising_guard s FiringStatus.heating ct now).segment_start_temp
        = s.segment_start_temp := by
    unfold tick_rising_guard
    dsimp only
    split_ifs <;> exact ⟨rfl, rfl, rfl⟩
  unfold tick_guards tick_runaway_guard
  dsimp only
  rw [if_pos ⟨rfl, hrising.1.trans hhold, hramp⟩, hrising.2.1, hrising.2.2,
    if_pos helaps, if_pos ⟨hrate1, hrate2⟩]
  exact ⟨rfl, rfl⟩

/-- C4 (amended): the runaway guard fires only while the status is `Heating`
(the code's condition is `status == FIRING_STATUS_HEATING`, not
`Heating || Cooling`): a command-free tick in `Heating`, not holding, with
`|ramp| > 0.1`, more than 300 s into the segment and observed rate above both
`2 × programmed` and `50 °C/h` latches the emergency stop with code
`Runaway`. -/
theorem C4_runaway_guard_heating (s : EngineState) (r : ThermocoupleReading) (now : Int)
    (hdelay : s.delay_active = false)
    (hem : s.safety.emergency = false)
    (hact : s.progress_is_active = true)
    (hst : s.progress_status = FiringStatus.heating)
    (hhold : s.holding = false)
    (hramp : |(s.active_profile.segments.getD s.progress_current_segment
        defaultSegment).ramp_rate| > 1 / 10)
    (helaps : ((now - s.segment_start_time_us : Int) : ℚ) / 1000000 > 300)
    (hrate1 : ((r.temperature_c + s.tc_offset_c) - s.segment_start_temp) /
        (((now - s.segment_start_time_us : Int) : ℚ) / 1000000) * 3600 >
        (s.active_profile.segments.getD s.progress_current_segment
          defaultSegment).ramp_rate * RUNAWAY_RATE_MULTIPLIER)
    (hrate2 : ((r.temperature_c + s.tc_offset_c) - s.segment_start_temp) /
        (((now - s.segment_start_time_us : Int) : ℚ) / 1000000) * 3600 > 50) :
    (firing_tick s [] r now).safety.emergency = true ∧
    (firing_tick s [] r now).last_error_code = FiringErrorCode.runaway := by
  show (firing_tick_core s r now).safety.emergency = true ∧
    (firing_tick_core s r now).last_error_code = FiringErrorCode.runaway
  unfold firing_tick_core
  rw [if_neg (show ¬(s.delay_active = true ∧ now < s.delay_start_end_us) from by
    simp [hdelay])]
  try dsimp only
  rw [if_neg (show ¬(s.delay_active = true) from by simp [hdelay])]
  try dsimp only
  rw [if_neg (show ¬(s.safety.emergency = true) from by simp [hem])]
  try dsimp only
  rw [if_neg (show ¬(s.progress_is_active = false ∨
      s.progress_status = FiringStatus.paused ∨ s.progress_status = FiringStatus.idle ∨
      s.progress_status = FiringStatus.complete ∨ s.progress_status = FiringStatus.error)
      from by simp [hact, hst]),
    if_neg (show ¬(s.progress_status = FiringStatus.autotune) from by simp [hst]), hst]
  have hg := tick_guards_runaway
    { s with progress_status := FiringStatus.heating
             progress_current_temp := r.temperature_c + s.tc_offset_c
             last_compute_us := now }
    (s.active_profile.segments.getD s.progress_current_segment defaultSegment)
    (r.temperature_c + s.tc_offset_c) now hhold hramp helaps hrate1 hrate2
  have hc := tick_control_keeps_emergency
    (tick_guards
      { s with progress_status := FiringStatus.heating
               progress_current_temp := r.temperature_c + s.tc_offset_c
               last_compute_us := now }
      FiringStatus.heating
      (s.active_profile.segments.getD s.progress_current_segment defaultSegment)
      (r.temperature_c + s.tc_offset_c) now)
    (s.active_profile.segments.getD s.progress_current_segment defaultSegment)
    (r.temperature_c + s.tc_offset_c)
    (((now - s.last_compute_us : Int) : ℚ) / 1000000) now
  exact ⟨hc.1.trans hg.1, hc.2.trans hg.2⟩

/-- C4 (counterexample to the claim as stated): in `Cooling`, 400 s into a
−150 °C/h segment entered at 1000 °C, a reading of 1100 °C gives an observed
rate of +900 °C/h — above `2 × programmed` and above 50 °C/h — yet the tick
does not emergency-stop: the code's runaway guard requires
`status == FIRING_STATUS_HEATING`. -/
theorem C4_cooling_counterexample :
    c4CoolState.progress_status = FiringStatus.cooling ∧
    ((1100 : ℚ) - 1000) / (((400000000 - 0 : Int) : ℚ) / 1000000) * 3600 = 900 ∧
    (firing_tick c4CoolState [] reading1100 400000000).safety.emergency = false ∧
    (firing_tick c4CoolState [] reading1100 400000000).last_error_code
      = FiringErrorCode.noError := by
  refine ⟨rfl, by norm_num, ?_⟩
  norm_num +decide [firing_tick, firing_tick_core, c4CoolState, c4CoolProfile, initialEngine,
    reading1100, safety_init, sampleAutotune, pid_init, tick_guards, tick_rising_guard,
    tick_runaway_guard, tick_control, tick_element_hours, tick_trace_sample,
    tick_hold_entry, tick_hold_exit, tick_progress_timing, dyn_setpoint, pid_compute,
    safety_set_ssr, safety_emergency_stop, start_segment, defaultSegment,
    HARDWARE_MAX_TEMP_C, RISING_CHECK_INTERVAL_US, RISING_THRESHOLD_C,
    RUNAWAY_RATE_MULTIPLIER, HISTORY_SAMPLE_INTERVAL_US, ELEM_SAVE_INTERVAL_US,
    SSR_WINDOW_US, cTrunc_zero, cTrunc_one, cTrunc_ofNat]

/-- C4 witness: in `Heating` with programmed +60 °C/h, 400 s into the
segment, an observed rate of 900 °C/h trips the `Runaway` emergency stop. -/
theorem C4_runaway_guard_heating_witness :
    (firing_tick c4HeatState [] reading1100 400000000).safety.emergency = true ∧
    (firing_tick c4HeatState [] reading1100 400000000).last_error_code
      = FiringErrorCode.runaway := by
  refine C4_runaway_guard_heating c4HeatState reading1100 400000000 rfl rfl rfl rfl rfl
    ?_ ?_ ?_ ?_
  · norm_num [c4HeatState, c4HeatProfile, initialEngine, defaultSegment]
  · norm_num [c4HeatState, initialEngine]
  · norm_num [c4HeatState, c4HeatProfile, initialEngine, reading1100, defaultSegment,
      RUNAWAY_RATE_MULTIPLIER]
  · norm_num [c4HeatState, initialEngine, reading1100]

/-- C3 (failing trace): start a firing at t = 1 s (PID output 0 on the first
tick), run one tick at t = 2 s (the PID saturates; stored duty becomes 1),
then at t = 3 s deliver `Start` with a 1-minute delay while the firing is
active (the code accepts it).  The engine enters the delay countdown showing
status `Idle` — and the stored SSR duty remains 1: the claimed invariant
`duty = 0 whenever status = Idle` fails on this reachable state. -/
theorem C3_delayed_restart_duty_bug :
    ((firing_tick (firing_tick (firing_tick (initialEngine 0)
        [FiringCmd.start c3Profile 0] reading20 1000000)
        [] reading20 2000000)
        [FiringCmd.start c3Profile 1] reading20 3000000).progress_status
      = FiringStatus.idle) ∧
    ((firing_tick (firing_tick (firing_tick (initialEngine 0)
        [FiringCmd.start c3Profile 0] reading20 1000000)
        [] reading20 2000000)
        [FiringCmd.start c3Profile 1] reading20 3000000).progress_is_active
      = true) ∧
    ((firing_tick (firing_tick (firing_tick (initialEngine 0)
        [FiringCmd.start c3Profile 0] reading20 1000000)
        [] reading20 2000000)
        [FiringCmd.start c3Profile 1] reading20 3000000).safety.ssr_duty
      = 1) ∧
    ((firing_tick (firing_tick (firing_tick (initialEngine 0)
        [FiringCmd.start c3Profile 0] reading20 1000000)
        [] reading20 2000000)
        [FiringCmd.start c3Profile 1] reading20 3000000).safety.emergency
      = false) := by
  norm_num +decide [firing_tick, firing_tick_core, c3Profile, initialEngine,
    reading20, safety_init, sampleAutotune, pid_init, pid_reset, process_cmd,
    do_stop, start_segment, tick_guards, tick_rising_guard, tick_runaway_guard,
    tick_control, tick_element_hours, tick_trace_sample, tick_hold_entry,
    tick_hold_exit, tick_progress_timing, dyn_setpoint, pid_compute,
    safety_set_ssr, safety_emergency_stop, defaultSegment,
    HARDWARE_MAX_TEMP_C, RISING_CHECK_INTERVAL_US, RISING_THRESHOLD_C,
    RUNAWAY_RATE_MULTIPLIER, HISTORY_SAMPLE_INTERVAL_US, ELEM_SAVE_INTERVAL_US,
    SSR_WINDOW_US, cTrunc_zero, cTrunc_one, cTrunc_ofNat, List.foldl]

theorem sameView_trans {a b c : EngineState} (h1 : SameView a b) (h2 : SameView b c) :
    SameView a c :=
  ⟨h1.1.trans h2.1, h1.2.1.trans h2.2.1, h1.2.2.1.trans h2.2.2.1,
   h1.2.2.2.1.trans h2.2.2.2.1, h1.2.2.2.2.1.trans h2.2.2.2.2.1,
   h1.2.2.2.2.2.1.trans h2.2.2.2.2.2.1, h1.2.2.2.2.2.2.trans h2.2.2.2.2.2.2⟩

theorem tick_element_hours_view (s : EngineState) (o dt : ℚ) (now : Int) :
    SameView (tick_element_hours s o dt now) s := by
  unfold tick_element_hours SameView
  dsimp only
  split_ifs <;> exact ⟨rfl, rfl, rfl, rfl, rfl, rfl, rfl⟩

theorem tick_trace_sample_view (s : EngineState) (now : Int) :
    SameView (tick_trace_sample s now) s := by
  unfold tick_trace_sample SameView
  split_ifs <;> exact ⟨rfl, rfl, rfl, rfl, rfl, rfl, rfl⟩

theorem tick_progress_timing_view (s : EngineState) (sp dt : ℚ) :
    SameView (tick_progress_timing s sp dt) s :=
  ⟨rfl, rfl, rfl, rfl, rfl, rfl, rfl⟩

theorem tick_hold_entry_skip (s : EngineState) (seg : FiringSegment)
    (sp ct : ℚ) (now : Int) (hh : s.holding = true) :
    tick_hold_entry s seg sp ct now = s := by
  unfold tick_hold_entry
  rw [if_neg (by simp [hh])]

theorem tick_hold_exit_zero (s : EngineState) (seg : FiringSegment)
    (ct : ℚ) (now : Int) (h0 : seg.hold_time = 0) :
    tick_hold_exit s seg ct now = s := by
  unfold tick_hold_exit
  by_cases hh : s.holding = true
  · rw [if_pos hh, if_neg (by simp [h0])]
  · rw [if_neg hh]

/-- While holding a zero-hold segment, the control tail changes none of the
tracked fields: the segment is never advanced and the firing never
finalized. -/
theorem tick_control_holding_view (s : EngineState) (seg : FiringSegment)
    (ct dt : ℚ) (now : Int) (hh : s.holding = true) (h0 : seg.hold_time = 0) :
    SameView (tick_control s seg ct dt now) s := by
  unfold tick_control
  dsimp only
  refine sameView_trans (tick_progress_timing_view _ _ _) ?_
  rw [tick_hold_exit_zero _ _ _ _ h0]
  rw [tick_hold_entry_skip _ _ _ _ _ ?hold]
  case hold =>
    rw [(tick_trace_sample_view _ _).2.2.1, (tick_element_hours_view _ _ _ _).2.2.1]
    exact hh
  refine sameView_trans (tick_trace_sample_view _ _) ?_
  refine sameView_trans (tick_element_hours_view _ _ _ _) ?_
  exact ⟨rfl, rfl, rfl, rfl, rfl, rfl, rfl⟩

theorem tick_rising_guard_nonheating (s : EngineState) (status : FiringStatus)
    (ct : ℚ) (now : Int) (h : status ≠ FiringStatus.heating) :
    tick_rising_guard s status ct now = s := by
  unfold tick_rising_guard
  rw [if_neg (by simp [h])]

theorem tick_runaway_guard_nonheating (s : EngineState) (status : FiringStatus)
    (seg : FiringSegment) (ct : ℚ) (now : Int) (h : status ≠ FiringStatus.heating) :
    tick_runaway_guard s status seg ct now = s := by
  unfold tick_runaway_guard
  rw [if_neg (by simp [h])]

theorem tick_guards_nonheating (s : EngineState) (status : FiringStatus)
    (seg : FiringSegment) (ct : ℚ) (now : Int) (h : status ≠ FiringStatus.heating) :
    tick_guards s status seg ct now = s := by
  unfold tick_guards
  rw [tick_rising_guard_nonheating _ _ _ _ h, tick_runaway_guard_nonheating _ _ _ _ _ h]

theorem process_cmd_pause_inv (k : Nat) (P : FiringProfile) (s : EngineState)
    (r : ThermocoupleReading) (now : Int) (hInv : C5Inv k P s) :
    C5Inv k P (process_cmd s FiringCmd.pause r now) := by
  obtain ⟨hd, hh, hk, ht, hp, hst, hiff⟩ := hInv
  unfold process_cmd
  dsimp only
  by_cases hc : s.progress_is_active = true ∧ s.progress_status ≠ FiringStatus.paused
  · rw [if_pos hc]
    exact ⟨hd, hh, hk, ht, hp, Or.inr (Or.inl rfl), by simp [hc.1]⟩
  · rw [if_neg hc]
    exact ⟨hd, hh, hk, ht, hp, hst, hiff⟩

theorem process_cmd_resume_inv (k : Nat) (P : FiringProfile) (s : EngineState)
    (r : ThermocoupleReading) (now : Int) (hInv : C5Inv k P s) :
    C5Inv k P (process_cmd s FiringCmd.resume r now) := by
  obtain ⟨hd, hh, hk, ht, hp, hst, hiff⟩ := hInv
  unfold process_cmd
  dsimp only
  by_cases hc : s.progress_status = FiringStatus.paused
  · rw [if_pos hc]
    have hact : s.progress_is_active = true := by
      cases hA : s.progress_is_active
      · exact absurd (hiff.mpr hA) (by simp [hc])
      · rfl
    rw [hh]
    exact ⟨hd, rfl, hk, ht, hp, Or.inl (by simp), by simp [hact]⟩
  · rw [if_neg hc]
    exact ⟨hd, hh, hk, ht, hp, hst, hiff⟩

theorem process_cmds_inv (k : Nat) (P : FiringProfile)
    (r : ThermocoupleReading) (now : Int) (cmds : List FiringCmd) :
    ∀ s : EngineState, C5Inv k P s →
    (∀ c ∈ cmds, c = FiringCmd.pause ∨ c = FiringCmd.resume) →
    C5Inv k P (cmds.foldl (fun a c => process_cmd a c r now) s) := by
  induction cmds with
  | nil => intro s hInv _; exact hInv
  | cons c cs ih =>
      intro s hInv hall
      rw [List.foldl_cons]
      refine ih (process_cmd s c r now) ?_ (fun c' hc' => hall c' (List.mem_cons_of_mem _ hc'))
      rcases hall c (List.mem_cons_self _ _) with h | h <;> subst h
      · exact process_cmd_pause_inv k P s r now hInv
      · exact process_cmd_resume_inv k P s r now hInv

theorem firing_tick_core_inv (k : Nat) (P : FiringProfile)
    (hP : (P.segments.getD k defaultSegment).hold_time = 0)
    (s : EngineState) (r : ThermocoupleReading) (now : Int)
    (hInv : C5Inv k P s) : C5Inv k P (firing_tick_core s r now) := by
  obtain ⟨hd, hh, hk, ht, hp, hst, hiff⟩ := hInv
  unfold firing_tick_core
  rw [if_neg (show ¬(s.delay_active = true ∧ now < s.delay_start_end_us) from by
    simp [hd])]
  try dsimp only
  rw [if_neg (show ¬(s.delay_active = true) from by simp [hd])]
  try dsimp only
  by_cases hem : s.safety.emergency = true
  · rw [if_pos hem]
    by_cases ha : s.progress_is_active = true
    · rw [if_pos ha]
      exact ⟨hd, hh, hk, ht, hp, Or.inr (Or.inr rfl), by simp⟩
    · rw [if_neg ha]
      exact ⟨hd, hh, hk, ht, hp, hst, hiff⟩
  · rw [if_neg hem]
    try dsimp only
    by_cases hb : s.progress_is_active = false ∨ s.progress_status = FiringStatus.paused ∨
        s.progress_status = FiringStatus.idle ∨ s.progress_status = FiringStatus.complete ∨
        s.progress_status = FiringStatus.error
    · rw [if_pos hb]
      by_cases hpz : s.progress_status ≠ FiringStatus.paused
      · rw [if_pos hpz]
        exact ⟨hd, hh, hk, ht, hp, hst, hiff⟩
      · rw [if_neg hpz]
        exact ⟨hd, hh, hk, ht, hp, hst, hiff⟩
    · rw [if_neg hb]
      have hstatus : s.progress_status = FiringStatus.holding := by
        rcases hst with h | h | h
        · exact h
        · exact absurd (Or.inr (Or.inl h)) hb
        · exact absurd (Or.inr (Or.inr (Or.inr (Or.inr h)))) hb
      rw [if_neg (show ¬(s.progress_status = FiringStatus.autotune) from by
        simp [hstatus])]
      rw [hstatus]
      rw [tick_guards_nonheating _ _ _ _ _ (by simp)]
      have hview := tick_control_holding_view
        { s with progress_status := FiringStatus.holding
                 progress_current_temp := r.temperature_c + s.tc_offset_c
                 last_compute_us := now }
        (s.active_profile.segments.getD s.progress_current_segment defaultSegment)
        (r.temperature_c + s.tc_offset_c)
        (((now - s.last_compute_us : Int) : ℚ) / 1000000) now hh
        (by rw [show ({ s with
              progress_status := FiringStatus.holding
              progress_current_temp := r.temperature_c + s.tc_offset_c
              last_compute_us := now } : EngineState).active_profile = P from hp]
            rw [show ({ s with
              progress_status := FiringStatus.holding
              progress_current_temp := r.temperature_c + s.tc_offset_c
              last_compute_us := now } : EngineState).progress_current_segment = k from hk]
            exact hP)
      obtain ⟨v1, v2, v3, v4, v5, v6, v7⟩ := hview
      have hact : s.progress_is_active = true := by
        cases hA : s.progress_is_active
        · exact absurd (hiff.mpr hA) (by simp [hstatus])
        · rfl
      refine ⟨v5.trans hd, v3.trans hh, v1.trans hk, v7.trans ht, v6.trans hp, ?_, ?_⟩
      · rw [v2]
        exact Or.inl rfl
      · rw [v2, v4]
        simp [hact]

theorem firing_tick_inv (k : Nat) (P : FiringProfile)
    (hP : (P.segments.getD k defaultSegment).hold_time = 0)
    (s : EngineState) (cmds : List FiringCmd) (r : ThermocoupleReading) (now : Int)
    (hInv : C5Inv k P s)
    (hcmds : ∀ c ∈ cmds, c = FiringCmd.pause ∨ c = FiringCmd.resume) :
    C5Inv k P (firing_tick s cmds r now) :=
  firing_tick_core_inv k P hP _ r now (process_cmds_inv k P r now cmds s hInv hcmds)

theorem runTicks_inv (k : Nat) (P : FiringProfile)
    (hP : (P.segments.getD k defaultSegment).hold_time = 0)
    (steps : List (List FiringCmd × ThermocoupleReading × Int)) :
    ∀ s : EngineState, C5Inv k P s →
    (∀ st ∈ steps, ∀ c ∈ st.1, c = FiringCmd.pause ∨ c = FiringCmd.resume) →
    C5Inv k P (runTicks s steps) := by
  induction steps with
  | nil => intro s hInv _; exact hInv
  | cons st sts ih =>
      intro s hInv hall
      unfold runTicks
      rw [List.foldl_cons]
      exact ih _
        (firing_tick_inv k P hP s st.1 st.2.1 st.2.2 hInv
          (hall st (List.mem_cons_self _ _)))
        (fun st' hst' => hall st' (List.mem_cons_of_mem _ hst'))

/-- C5: once the engine holds a segment with `hold_minutes = 0`, no sequence
of ticks whose commands are only `Pause`/`Resume` ever advances the segment
index or reaches `Complete` (or `Idle`); the hold is left only by
`SkipSegment` — which advances, or completes the firing when the segment is
the last — or by `Stop`, which returns to `Idle` with duty 0. -/
theorem C5_infinite_hold (k : Nat) (P : FiringProfile)
    (hP : (P.segments.getD k defaultSegment).hold_time = 0) :
    (∀ (steps : List (List FiringCmd × ThermocoupleReading × Int)) (s0 : EngineState),
      C5Inv k P s0 →
      (∀ st ∈ steps, ∀ c ∈ st.1, c = FiringCmd.pause ∨ c = FiringCmd.resume) →
      (runTicks s0 steps).progress_current_segment = k ∧
      (runTicks s0 steps).progress_status ≠ FiringStatus.complete ∧
      (runTicks s0 steps).progress_status ≠ FiringStatus.idle) ∧
    (∀ (s : EngineState) (r : ThermocoupleReading) (now : Int),
      C5Inv k P s → s.progress_status = FiringStatus.holding →
      (k + 1 < P.segment_count →
        (process_cmd s FiringCmd.skipSegment r now).progress_current_segment = k + 1 ∧
        (process_cmd s FiringCmd.skipSegment r now).holding = false) ∧
      (P.segment_count ≤ k + 1 →
        (process_cmd s FiringCmd.skipSegment r now).progress_status
          = FiringStatus.complete ∧
        (process_cmd s FiringCmd.skipSegment r now).progress_is_active = false)) ∧
    (∀ (s : EngineState) (r : ThermocoupleReading) (now : Int),
      (process_cmd s FiringCmd.stop r now).progress_status = FiringStatus.idle ∧
      (process_cmd s FiringCmd.stop r now).progress_is_active = false) := by
  refine ⟨?_, ?_, ?_⟩
  · intro steps s0 hInv hall
    obtain ⟨hd, hh, hk, ht, hp, hst, hiff⟩ := runTicks_inv k P hP steps s0 hInv hall
    refine ⟨hk, ?_, ?_⟩ <;>
      rcases hst with h | h | h <;> simp [h]
  · intro s r now hInv hholding
    obtain ⟨hd, hh, hk, ht, hp, hst, hiff⟩ := hInv
    have hact : s.progress_is_active = true := by
      cases hA : s.progress_is_active
      · exact absurd (hiff.mpr hA) (by simp [hholding])
      · rfl
    constructor
    · intro hlt
      unfold process_cmd
      dsimp only
      rw [if_pos ⟨hact, by rw [hk, ht]; exact hlt⟩, hk]
      exact ⟨rfl, rfl⟩
    · intro hge
      unfold process_cmd
      dsimp only
      rw [if_neg (by rw [hk, ht]; simp [hact]; omega), if_pos hact]
      exact ⟨rfl, rfl⟩
  · intro s r now
    exact ⟨rfl, rfl⟩

/-- C5 witness: three ticks — idle, `Pause`, `Resume` — leave the infinite
hold in place. -/
theorem C5_infinite_hold_witness :
    (runTicks c5HoldState
      [([], reading20, 1000000), ([FiringCmd.pause], reading20, 2000000),
       ([FiringCmd.resume], reading20, 3000000)]).progress_current_segment = 0 ∧
    (runTicks c5HoldState
      [([], reading20, 1000000), ([FiringCmd.pause], reading20, 2000000),
       ([FiringCmd.resume], reading20, 3000000)]).progress_status
      ≠ FiringStatus.complete := by
  have h := (C5_infinite_hold 0 c3Profile rfl).1
    [([], reading20, 1000000), ([FiringCmd.pause], reading20, 2000000),
     ([FiringCmd.resume], reading20, 3000000)]
    c5HoldState
    ⟨rfl, rfl, rfl, rfl, rfl, Or.inl rfl, by simp [c5HoldState, initialEngine]⟩
    (by intro st hst c hc
        simp only [List.mem_cons, List.not_mem_nil, or_false] at hst
        rcases hst with rfl | rfl | rfl
        · exact absurd hc (List.not_mem_nil c)
        · exact Or.inl (by simpa using hc)
        · exact Or.inr (by simpa using hc))
  exact ⟨h.1, h.2.1⟩

/-- C2 witness: frame `65543 = 2¹⁶ + 7` is faulted with all three fault flags
set; frame `1469054976 = 5604 · 2¹⁸` decodes to 1401 °C. -/
theorem C2_spi_frame_decode_witness :
    (thermocouple_read 65543 0).temperature_c = 0 ∧
    (thermocouple_read 65543 0).fault.testBit 0 = true ∧
    (thermocouple_read 65543 0).fault.testBit 1 = true ∧
    (thermocouple_read 65543 0).fault.testBit 2 = true ∧
    (thermocouple_read 1469054976 0).temperature_c
      = (signExtendTC 14 (frameField 1469054976 18 14) : ℚ) * (1 / 4) := by
  have h1 := (C2_spi_frame_decode 65543 0).1 (by decide)
  have h2 := (C2_spi_frame_decode 1469054976 0).2 (by decide)
  refine ⟨h1.1, ?_, ?_, ?_, h2.1⟩
  · rw [h1.2.2.1]; decide
  · rw [h1.2.2.2.1]; decide
  · rw [h1.2.2.2.2]; decide

end Bisque
